import Mathlib

/-!
# Chain parameters and node configuration

A shallow embedding of `src/chainparams.cpp` and `src/config.cpp`.

* C++ functions that can throw or hit a failed `assert` return an `Outcome`.
* Process-wide variables (`globalChainParams`) are an explicit `Globals` record
  that is passed in and returned.
* Unsigned machine integers are `Nat`; arithmetic on `uint64_t` is reduced
  modulo `2 ^ 64` where the source computes a product.
* Everything the two files take from headers and libraries that are not part
  of the sources at hand (constants of `consensus/consensus.h`, the seed
  tables, the script encoders, the hash functions, `SelectBaseParams`) is a
  field of `Env`.  A concrete `Env` built from SHA-256 and the usual wire
  encoding is given further down and used to evaluate the definitions.
-/

namespace BCHN

/-! ## Outcomes of a C++ call -/

/-- Result of running a C++ function: it returns a value, it throws an
exception that propagates to the caller, or an `assert` fails and the process
is terminated. -/
inductive Outcome (α : Type) where
  | ok (a : α) : Outcome α
  | threw (what : String) : Outcome α
  | abort : Outcome α
deriving DecidableEq

/-! ## Primitive data -/

/-- A 256-bit value (`uint256`, `BlockHash`), as the number it denotes. -/
abbrev uint256 := Nat

/-- A script is a vector of bytes. -/
abbrev CScript := List Nat

/-- Amounts are signed 64-bit counts of base units. -/
abbrev Amount := Int

/-- Reference to a previous output. -/
structure COutPoint where
  hash : uint256
  n : Nat
deriving DecidableEq

/-- Transaction input. -/
structure CTxIn where
  prevout : COutPoint
  scriptSig : CScript
  nSequence : Nat
deriving DecidableEq

/-- Transaction output. -/
structure CTxOut where
  nValue : Amount
  scriptPubKey : CScript
deriving DecidableEq

/-- Transaction under construction. -/
structure CMutableTransaction where
  nVersion : Int
  vin : List CTxIn
  vout : List CTxOut
  nLockTime : Nat
deriving DecidableEq

/-- Immutable transaction, as stored in a block. -/
structure CTransaction where
  nVersion : Int
  vin : List CTxIn
  vout : List CTxOut
  nLockTime : Nat
deriving DecidableEq

/-- Block header. -/
structure CBlockHeader where
  nVersion : Int
  hashPrevBlock : uint256
  hashMerkleRoot : uint256
  nTime : Nat
  nBits : Nat
  nNonce : Nat
deriving DecidableEq

/-- Block: a header followed by its transactions. -/
structure CBlock extends CBlockHeader where
  vtx : List CTransaction
deriving DecidableEq

/-- Compiled-in seed record: a 16-byte address and a port. -/
structure SeedSpec6 where
  addr : List Nat
  port : Nat
deriving DecidableEq

/-- Modelled from the spec: the value-initialised `CTxIn` of
`primitives/transaction.h` (absent), which `vin.resize(1)` creates: a null
previous output (zero hash, index `0xffffffff`), an empty script and a final
sequence number.  "a block's reward-issuing transaction with no real spendable
input". -/
def CTxIn.null : CTxIn :=
  { prevout := { hash := 0, n := 4294967295 }, scriptSig := [], nSequence := 4294967295 }

/-- Modelled from the spec: the value-initialised `CTxOut` of
`primitives/transaction.h` (absent), which `vout.resize(1)` creates; both of
its fields are overwritten by the genesis builder. -/
def CTxOut.null : CTxOut :=
  { nValue := -1, scriptPubKey := [] }

/-- Modelled from the spec: the default `CMutableTransaction` of
`primitives/transaction.h` (absent): no inputs, no outputs, lock time zero;
the version is overwritten by the genesis builder. -/
def CMutableTransaction.new : CMutableTransaction :=
  { nVersion := 2, vin := [], vout := [], nLockTime := 0 }

/-- Modelled from the spec: the default `CBlock` of `primitives/block.h`
(absent): every header field null and no transactions. -/
def CBlock.new : CBlock :=
  { nVersion := 0, hashPrevBlock := 0, hashMerkleRoot := 0, nTime := 0, nBits := 0,
    nNonce := 0, vtx := [] }

/-- The conversion `MakeTransactionRef(std::move(tx))`: the immutable
transaction with the fields of `tx`. -/
def MakeTransactionRef (tx : CMutableTransaction) : CTransaction :=
  { nVersion := tx.nVersion, vin := tx.vin, vout := tx.vout, nLockTime := tx.nLockTime }

/-! ## What the absent headers and libraries provide -/

/-- Everything `chainparams.cpp` and `config.cpp` take from headers and
libraries that are not among the sources: constants, seed tables, script
encoders, hash functions and `SelectBaseParams`. -/
structure Env where
  /-- Constant `ONE_MEGABYTE` of `consensus/consensus.h`. -/
  ONE_MEGABYTE : Nat
  /-- Constant `DEFAULT_EXCESSIVE_BLOCK_SIZE` of `consensus/consensus.h`. -/
  DEFAULT_EXCESSIVE_BLOCK_SIZE : Nat
  /-- Constant `DEFAULT_MAX_MEMPOOL_SIZE_PER_MB`. -/
  DEFAULT_MAX_MEMPOOL_SIZE_PER_MB : Nat
  /-- Constant `DEFAULT_USE_CASHADDR`. -/
  DEFAULT_USE_CASHADDR : Bool
  /-- Constants of `chainparamsconstants.h`. -/
  MAINNET_MINIMUM_CHAIN_WORK : uint256
  MAINNET_DEFAULT_ASSUME_VALID : uint256
  TESTNET_MINIMUM_CHAIN_WORK : uint256
  TESTNET_DEFAULT_ASSUME_VALID : uint256
  TESTNET4_MINIMUM_CHAIN_WORK : uint256
  TESTNET4_DEFAULT_ASSUME_VALID : uint256
  SCALENET_MINIMUM_CHAIN_WORK : uint256
  SCALENET_DEFAULT_ASSUME_VALID : uint256
  /-- Tables of `chainparamsseeds.h`. -/
  pnSeed6_main : List SeedSpec6
  pnSeed6_testnet3 : List SeedSpec6
  pnSeed6_testnet4 : List SeedSpec6
  pnSeed6_scalenet : List SeedSpec6
  /-- The script operator `CScript << ScriptInt`. -/
  pushScriptInt : CScript → Int → CScript
  /-- The script operator `CScript << CScriptNum`. -/
  pushScriptNum : CScript → Int → CScript
  /-- The script operator `CScript << std::vector<uint8_t>`. -/
  pushBytes : CScript → List Nat → CScript
  /-- The script operator `CScript << opcodetype`. -/
  pushOpcode : CScript → Nat → CScript
  /-- The header hash `CBlockHeader::GetHash`. -/
  GetHash : CBlockHeader → uint256
  /-- The transaction hash `CTransaction::GetId`. -/
  GetId : CTransaction → uint256
  /-- The hash of an inner node of the merkle tree, from its two children. -/
  MerkleHash : uint256 → uint256 → uint256
  /-- The call `SelectBaseParams(network)` of `chainparamsbase.cpp`: whether it
  returns, throws or aborts.  Its effect on its own module is not observed. -/
  SelectBaseParams : String → Outcome Unit

/-- Modelled from the spec: the constant `LEGACY_MAX_BLOCK_SIZE` of
`consensus/consensus.h` (absent), "a fixed historic legacy floor (1,000,000
size units)". -/
def LEGACY_MAX_BLOCK_SIZE : Nat := 1000000

/-- Modelled from the spec: the constant `COIN` of `amount.h` (absent); the
genesis reward `50 * COIN` is "50 × 10^8 base units". -/
def COIN : Amount := 100000000

/-- Modelled from the spec: the constant `OP_CHECKSIG` of `script/script.h`
(absent), the opcode that closes "the literal public-key script". -/
def OP_CHECKSIG : Nat := 172

/-- Modelled from the spec: the network-name constant `CBaseChainParams::MAIN`
of `chainparamsbase.h` (absent); the token set is "{main, testnet, testnet4,
scalenet, regtest}". -/
def CBaseChainParams.MAIN : String := "main"

/-- Modelled from the spec: the network-name constant
`CBaseChainParams::TESTNET` of `chainparamsbase.h` (absent). -/
def CBaseChainParams.TESTNET : String := "testnet"

/-- Modelled from the spec: the network-name constant
`CBaseChainParams::TESTNET4` of `chainparamsbase.h` (absent). -/
def CBaseChainParams.TESTNET4 : String := "testnet4"

/-- Modelled from the spec: the network-name constant
`CBaseChainParams::SCALENET` of `chainparamsbase.h` (absent). -/
def CBaseChainParams.SCALENET : String := "scalenet"

/-- Modelled from the spec: the network-name constant
`CBaseChainParams::REGTEST` of `chainparamsbase.h` (absent). -/
def CBaseChainParams.REGTEST : String := "regtest"

/-! ## Merkle root -/

/-- One level of the merkle tree: adjacent nodes are hashed in pairs, a last
node without partner is paired with itself. -/
def merkleLevel (H : uint256 → uint256 → uint256) : List uint256 → List uint256
  | [] => []
  | [a] => [H a a]
  | a :: b :: rest => H a b :: merkleLevel H rest

/-- Modelled from the spec: `ComputeMerkleRoot` of `consensus/merkle.cpp`
(absent), the "root hash of the tree of transaction hashes in a block": levels
are folded until one node is left; "for one transaction the merkle root equals
that transaction's hash"; an empty list gives the null hash.  The first
argument bounds the number of levels. -/
def ComputeMerkleRoot (H : uint256 → uint256 → uint256) : Nat → List uint256 → uint256
  | _, [] => 0
  | _, [h] => h
  | 0, _ :: _ :: _ => 0
  | fuel + 1, a :: b :: rest => ComputeMerkleRoot H fuel (merkleLevel H (a :: b :: rest))

/-- Modelled from the spec: `BlockMerkleRoot` of `consensus/merkle.cpp`
(absent): the merkle root over the hashes of the block's transactions. -/
def BlockMerkleRoot (env : Env) (block : CBlock) : uint256 :=
  ComputeMerkleRoot env.MerkleHash block.vtx.length (block.vtx.map env.GetId)

/-! ## Genesis block (chainparams.cpp, lines 23-75) -/

/-- The bytes of a C string: everything before the first NUL, which is what
`strlen` measures. -/
def cstrBytes (psz : List Nat) : List Nat :=
  psz.takeWhile (fun b => b != 0)

/-- The bytes of a string literal as a C string. -/
def cstrLit (s : String) : List Nat :=
  s.data.map Char.toNat

/-- The static `CreateGenesisBlock(pszTimestamp, genesisOutputScript, nTime,
nNonce, nBits, nVersion, genesisReward)`. -/
def CreateGenesisBlock (env : Env) (pszTimestamp : List Nat) (genesisOutputScript : CScript)
    (nTime nNonce nBits : Nat) (nVersion : Int) (genesisReward : Amount) : CBlock :=
  let txNew : CMutableTransaction :=
    { CMutableTransaction.new with
      nVersion := 1
      vin := [{ CTxIn.null with
                scriptSig :=
                  env.pushBytes
                    (env.pushScriptNum (env.pushScriptInt [] 486604799) 4)
                    (cstrBytes pszTimestamp) }]
      vout := [{ CTxOut.null with
                 nValue := genesisReward
                 scriptPubKey := genesisOutputScript }] }
  let genesis : CBlock :=
    { CBlock.new with
      nTime := nTime
      nBits := nBits
      nNonce := nNonce
      nVersion := nVersion
      vtx := CBlock.new.vtx ++ [MakeTransactionRef txNew]
      hashPrevBlock := 0 }
  { genesis with hashMerkleRoot := BlockMerkleRoot env genesis }

/-- The bytes `ParseHex` yields for the public key literal of the genesis
output script. -/
def genesisPubKey : List Nat :=
  [0x04, 0x85, 0x5b, 0x21, 0xed, 0xaa, 0xc2, 0xed, 0x5a, 0x56, 0x90, 0x67, 0x4d, 0xc2, 0xf9, 0x25,
   0x32, 0x1b, 0x2d, 0x33, 0xbf, 0x8a, 0xcc, 0x22, 0xfa, 0x86, 0xb3, 0x6f, 0x37, 0xa2, 0x68, 0xe0,
   0xee, 0x5a, 0x5f, 0x37, 0xfa, 0xb6, 0xd0, 0xb0, 0x4b, 0xb5, 0x67, 0x62, 0xd5, 0x4a, 0xa6, 0x83,
   0xb8, 0x6a, 0xe2, 0x38, 0x57, 0xb4, 0xad, 0x8a, 0x17, 0x28, 0x7e, 0xd3, 0x02, 0xaf, 0xc3, 0x78,
   0x71]

/-- The five-argument `CreateGenesisBlock(nTime, nNonce, nBits, nVersion,
genesisReward)`, with the embedded timestamp and output script. -/
def CreateGenesisBlock5 (env : Env) (nTime nNonce nBits : Nat) (nVersion : Int)
    (genesisReward : Amount) : CBlock :=
  let pszTimestamp := cstrLit "hi twitter"
  let genesisOutputScript := env.pushOpcode (env.pushBytes [] genesisPubKey) OP_CHECKSIG
  CreateGenesisBlock env pszTimestamp genesisOutputScript nTime nNonce nBits nVersion
    genesisReward

/-! ## Per-network parameters (chainparams.cpp, lines 77-771) -/

/-- Anchor block of the ASERT difficulty algorithm. -/
structure ASERTAnchor where
  nHeight : Nat
  nBits : Nat
  nPrevBlockTime : Int
deriving DecidableEq

/-- The record `Consensus::Params`. -/
structure ConsensusParams where
  hashGenesisBlock : uint256
  nSubsidyHalvingInterval : Int
  BIP16Height : Int
  BIP34Height : Int
  BIP34Hash : uint256
  BIP65Height : Int
  BIP66Height : Int
  CSVHeight : Int
  uahfHeight : Int
  daaHeight : Int
  magneticAnomalyHeight : Int
  gravitonHeight : Int
  phononHeight : Int
  axionActivationTime : Int
  upgrade8ActivationTime : Int
  upgrade9ActivationTime : Int
  nDefaultExcessiveBlockSize : Nat
  nDefaultGeneratedBlockSize : Nat
  powLimit : uint256
  fPowAllowMinDifficultyBlocks : Bool
  fPowNoRetargeting : Bool
  nPowTargetSpacing : Int
  nPowTargetTimespan : Int
  nASERTHalfLife : Int
  nMinimumChainWork : uint256
  defaultAssumeValid : uint256
  asertAnchorParams : Option ASERTAnchor
deriving DecidableEq

/-- The five base58 version prefixes, indexed by `Base58Type`. -/
structure Base58Prefixes where
  PUBKEY_ADDRESS : List Nat
  SCRIPT_ADDRESS : List Nat
  SECRET_KEY : List Nat
  EXT_PUBLIC_KEY : List Nat
  EXT_SECRET_KEY : List Nat
deriving DecidableEq

/-- Advisory transaction statistics; the rate is the literal zero throughout. -/
structure ChainTxData where
  nTime : Int
  nTxCount : Int
  dTxRate : Int
deriving DecidableEq

/-- The record `CChainParams`: everything that defines one network. -/
structure CChainParams where
  strNetworkID : String
  consensus : ConsensusParams
  diskMagic : List Nat
  netMagic : List Nat
  nDefaultPort : Nat
  nPruneAfterHeight : Nat
  m_assumed_blockchain_size : Nat
  m_assumed_chain_state_size : Nat
  genesis : CBlock
  vSeeds : List String
  vFixedSeeds : List SeedSpec6
  base58Prefixes : Base58Prefixes
  cashaddrPrefix : String
  fDefaultConsistencyChecks : Bool
  fRequireStandard : Bool
  m_is_test_chain : Bool
  checkpointData : List (Int × uint256)
  chainTxData : ChainTxData
deriving DecidableEq

/-- The genesis hash every constructor asserts. -/
def genesisHashExpected : uint256 :=
  0x00000000671e78e128aa4b3943689e2675d80410c280a81d9e102036716f1a0e

/-- The merkle root the constructors assert. -/
def genesisMerkleRootExpected : uint256 :=
  0x47e610f3c0282e7318658c16dfbb6e34b32a8d16b41b36ff693a460d50967077

/-- The call `CreateGenesisBlock(1638317164, 1607403406, 0x1d00ffff, 1,
50 * COIN)`, which every constructor makes. -/
def genesisCall (env : Env) : CBlock :=
  CreateGenesisBlock5 env 1638317164 1607403406 0x1d00ffff 1 (50 * COIN)

/-- The fields `CMainParams()` assigns. -/
def CMainParams.fields (env : Env) : CChainParams :=
  { strNetworkID := CBaseChainParams.MAIN
    consensus :=
      { nSubsidyHalvingInterval := 210000
        BIP16Height := 1
        BIP34Height := 1
        BIP34Hash := 0x00000000671e78e128aa4b3943689e2675d80410c280a81d9e102036716f1a0e
        BIP65Height := 1
        BIP66Height := 1
        CSVHeight := 1
        powLimit := 0x00000000ffffffffffffffffffffffffffffffffffffffffffffffffffffffff
        nPowTargetTimespan := 14 * 24 * 60 * 60
        nPowTargetSpacing := 10 * 60
        fPowAllowMinDifficultyBlocks := false
        fPowNoRetargeting := false
        nASERTHalfLife := 2 * 24 * 60 * 60
        nMinimumChainWork := env.MAINNET_MINIMUM_CHAIN_WORK
        defaultAssumeValid := env.MAINNET_DEFAULT_ASSUME_VALID
        uahfHeight := 1
        daaHeight := 1
        magneticAnomalyHeight := 1
        gravitonHeight := 1
        phononHeight := 1
        axionActivationTime := 1
        upgrade8ActivationTime := 1
        upgrade9ActivationTime := 1
        nDefaultExcessiveBlockSize := env.DEFAULT_EXCESSIVE_BLOCK_SIZE
        nDefaultGeneratedBlockSize := (8 * env.ONE_MEGABYTE) % 2 ^ 64
        asertAnchorParams := some { nHeight := 661647, nBits := 0x1804dafe, nPrevBlockTime := 1605447844 }
        hashGenesisBlock := env.GetHash (genesisCall env).toCBlockHeader }
    diskMagic := [0xfa, 0xbf, 0xb5, 0xda]
    netMagic := [0xe4, 0xe2, 0xf4, 0xe9]
    nDefaultPort := 8333
    nPruneAfterHeight := 100000
    m_assumed_blockchain_size := 240
    m_assumed_chain_state_size := 5
    genesis := genesisCall env
    vSeeds := ["seed.flowee.cash", "seed-bch.bitcoinforks.org",
               "btccash-seeder.bitcoinunlimited.info", "seed.bchd.cash", "seed.bch.loping.net",
               "dnsseed.electroncash.de", "bchseed.c3-soft.com", "bch.bitjson.com"]
    base58Prefixes :=
      { PUBKEY_ADDRESS := List.replicate 1 0
        SCRIPT_ADDRESS := List.replicate 1 5
        SECRET_KEY := List.replicate 1 128
        EXT_PUBLIC_KEY := [0x04, 0x88, 0xB2, 0x1E]
        EXT_SECRET_KEY := [0x04, 0x88, 0xAD, 0xE4] }
    cashaddrPrefix := "tbj"
    vFixedSeeds := env.pnSeed6_main
    fDefaultConsistencyChecks := false
    fRequireStandard := true
    m_is_test_chain := false
    checkpointData := []
    chainTxData := { nTime := 0, nTxCount := 0, dTxRate := 0 } }

/-- The constructor `CMainParams()`: the assignments of `CMainParams.fields`
read by three assertions (block sizes, genesis hash, merkle root); a failed
assertion aborts. -/
def CMainParams (env : Env) : Outcome CChainParams :=
  let p := CMainParams.fields env
  if ¬ (p.consensus.nDefaultGeneratedBlockSize ≤ p.consensus.nDefaultExcessiveBlockSize) then
    Outcome.abort
  else if ¬ (p.consensus.hashGenesisBlock = genesisHashExpected) then
    Outcome.abort
  else if ¬ (p.genesis.hashMerkleRoot = genesisMerkleRootExpected) then
    Outcome.abort
  else
    Outcome.ok p

/-- The fields `CTestNetParams()` assigns. -/
def CTestNetParams.fields (env : Env) : CChainParams :=
  { strNetworkID := CBaseChainParams.TESTNET
    consensus :=
      { nSubsidyHalvingInterval := 210000
        BIP16Height := 1
        BIP34Height := 1
        BIP34Hash := 0x00000000671e78e128aa4b3943689e2675d80410c280a81d9e102036716f1a0e
        BIP65Height := 1
        BIP66Height := 1
        CSVHeight := 1
        powLimit := 0x00000000ffffffffffffffffffffffffffffffffffffffffffffffffffffffff
        nPowTargetTimespan := 14 * 24 * 60 * 60
        nPowTargetSpacing := 10 * 60
        fPowAllowMinDifficultyBlocks := true
        fPowNoRetargeting := false
        nASERTHalfLife := 60 * 60
        nMinimumChainWork := env.TESTNET_MINIMUM_CHAIN_WORK
        defaultAssumeValid := env.TESTNET_DEFAULT_ASSUME_VALID
        uahfHeight := 1
        daaHeight := 1
        magneticAnomalyHeight := 1
        gravitonHeight := 1
        phononHeight := 1
        axionActivationTime := 1
        upgrade8ActivationTime := 1
        upgrade9ActivationTime := 1
        nDefaultExcessiveBlockSize := env.DEFAULT_EXCESSIVE_BLOCK_SIZE
        nDefaultGeneratedBlockSize := (8 * env.ONE_MEGABYTE) % 2 ^ 64
        asertAnchorParams := some { nHeight := 1421481, nBits := 0x1d00ffff, nPrevBlockTime := 1605445400 }
        hashGenesisBlock := env.GetHash (genesisCall env).toCBlockHeader }
    diskMagic := [0xfa, 0xbf, 0xb5, 0xda]
    netMagic := [0xe4, 0xe2, 0xf4, 0xe9]
    nDefaultPort := 18333
    nPruneAfterHeight := 1000
    m_assumed_blockchain_size := 60
    m_assumed_chain_state_size := 2
    genesis := genesisCall env
    vSeeds := ["testnet-seed-bch.bitcoinforks.org", "testnet-seed.bchd.cash",
               "seed.tbch.loping.net", "testnet-seed.bitcoinunlimited.info"]
    base58Prefixes :=
      { PUBKEY_ADDRESS := List.replicate 1 111
        SCRIPT_ADDRESS := List.replicate 1 196
        SECRET_KEY := List.replicate 1 239
        EXT_PUBLIC_KEY := [0x04, 0x35, 0x87, 0xCF]
        EXT_SECRET_KEY := [0x04, 0x35, 0x83, 0x94] }
    cashaddrPrefix := "bchtest"
    vFixedSeeds := env.pnSeed6_testnet3
    fDefaultConsistencyChecks := false
    fRequireStandard := false
    m_is_test_chain := true
    checkpointData := []
    chainTxData := { nTime := 0, nTxCount := 0, dTxRate := 0 } }

/-- The constructor `CTestNetParams()`: the assignments of
`CTestNetParams.fields` read by three assertions (block sizes, genesis hash,
merkle root); a failed assertion aborts. -/
def CTestNetParams (env : Env) : Outcome CChainParams :=
  let p := CTestNetParams.fields env
  if ¬ (p.consensus.nDefaultGeneratedBlockSize ≤ p.consensus.nDefaultExcessiveBlockSize) then
    Outcome.abort
  else if ¬ (p.consensus.hashGenesisBlock = genesisHashExpected) then
    Outcome.abort
  else if ¬ (p.genesis.hashMerkleRoot = genesisMerkleRootExpected) then
    Outcome.abort
  else
    Outcome.ok p

/-- The fields `CTestNet4Params()` assigns. -/
def CTestNet4Params.fields (env : Env) : CChainParams :=
  { strNetworkID := CBaseChainParams.TESTNET4
    consensus :=
      { nSubsidyHalvingInterval := 210000
        BIP16Height := 1
        BIP34Height := 1
        BIP34Hash := 0x00000000671e78e128aa4b3943689e2675d80410c280a81d9e102036716f1a0e
        BIP65Height := 1
        BIP66Height := 1
        CSVHeight := 1
        powLimit := 0x00000000ffffffffffffffffffffffffffffffffffffffffffffffffffffffff
        nPowTargetTimespan := 14 * 24 * 60 * 60
        nPowTargetSpacing := 10 * 60
        fPowAllowMinDifficultyBlocks := true
        fPowNoRetargeting := false
        nASERTHalfLife := 60 * 60
        nMinimumChainWork := env.TESTNET4_MINIMUM_CHAIN_WORK
        defaultAssumeValid := env.TESTNET4_DEFAULT_ASSUME_VALID
        uahfHeight := 1
        daaHeight := 1
        magneticAnomalyHeight := 1
        gravitonHeight := 1
        phononHeight := 0
        axionActivationTime := 1
        upgrade8ActivationTime := 1
        upgrade9ActivationTime := 1
        nDefaultExcessiveBlockSize := (2 * env.ONE_MEGABYTE) % 2 ^ 64
        nDefaultGeneratedBlockSize := (2 * env.ONE_MEGABYTE) % 2 ^ 64
        asertAnchorParams := some { nHeight := 16844, nBits := 0x1d00ffff, nPrevBlockTime := 1605451779 }
        hashGenesisBlock := env.GetHash (genesisCall env).toCBlockHeader }
    diskMagic := [0xfa, 0xbf, 0xb5, 0xda]
    netMagic := [0xe4, 0xe2, 0xf4, 0xe9]
    nDefaultPort := 28333
    nPruneAfterHeight := 1000
    m_assumed_blockchain_size := 1
    m_assumed_chain_state_size := 1
    genesis := genesisCall env
    vSeeds := ["testnet4-seed-bch.bitcoinforks.org", "testnet4-seed-bch.toom.im",
               "seed.tbch4.loping.net", "testnet4-seed.flowee.cash", "testnet4.bitjson.com"]
    base58Prefixes :=
      { PUBKEY_ADDRESS := List.replicate 1 111
        SCRIPT_ADDRESS := List.replicate 1 196
        SECRET_KEY := List.replicate 1 239
        EXT_PUBLIC_KEY := [0x04, 0x35, 0x87, 0xCF]
        EXT_SECRET_KEY := [0x04, 0x35, 0x83, 0x94] }
    cashaddrPrefix := "bchtest"
    vFixedSeeds := env.pnSeed6_testnet4
    fDefaultConsistencyChecks := false
    fRequireStandard := true
    m_is_test_chain := true
    checkpointData := []
    chainTxData := { nTime := 0, nTxCount := 0, dTxRate := 0 } }

/-- The constructor `CTestNet4Params()`: the assignments of
`CTestNet4Params.fields` read by two assertions (block sizes, genesis hash);
this constructor has no assertion on the merkle root (lines 479-484). -/
def CTestNet4Params (env : Env) : Outcome CChainParams :=
  let p := CTestNet4Params.fields env
  if ¬ (p.consensus.nDefaultGeneratedBlockSize ≤ p.consensus.nDefaultExcessiveBlockSize) then
    Outcome.abort
  else if ¬ (p.consensus.hashGenesisBlock = genesisHashExpected) then
    Outcome.abort
  else
    Outcome.ok p

/-- The fields `CScaleNetParams()` assigns. -/
def CScaleNetParams.fields (env : Env) : CChainParams :=
  { strNetworkID := CBaseChainParams.SCALENET
    consensus :=
      { nSubsidyHalvingInterval := 210000
        BIP16Height := 1
        BIP34Height := 1
        BIP34Hash := 0x00000000c8c35eaac40e0089a83bf5c5d9ecf831601f98c21ed4a7cb511a07d8
        BIP65Height := 1
        BIP66Height := 1
        CSVHeight := 1
        powLimit := 0x00000000ffffffffffffffffffffffffffffffffffffffffffffffffffffffff
        nPowTargetTimespan := 14 * 24 * 60 * 60
        nPowTargetSpacing := 10 * 60
        fPowAllowMinDifficultyBlocks := true
        fPowNoRetargeting := false
        nASERTHalfLife := 2 * 24 * 60 * 60
        nMinimumChainWork := env.SCALENET_MINIMUM_CHAIN_WORK
        defaultAssumeValid := env.SCALENET_DEFAULT_ASSUME_VALID
        uahfHeight := 1
        daaHeight := 1
        magneticAnomalyHeight := 1
        gravitonHeight := 1
        phononHeight := 0
        axionActivationTime := 1
        upgrade8ActivationTime := 1
        upgrade9ActivationTime := 1
        nDefaultExcessiveBlockSize := (256 * env.ONE_MEGABYTE) % 2 ^ 64
        nDefaultGeneratedBlockSize := (8 * env.ONE_MEGABYTE) % 2 ^ 64
        asertAnchorParams := none
        hashGenesisBlock := env.GetHash (genesisCall env).toCBlockHeader }
    diskMagic := [0xfa, 0xbf, 0xb5, 0xda]
    netMagic := [0xe4, 0xe2, 0xf4, 0xe9]
    nDefaultPort := 38333
    nPruneAfterHeight := 10000
    m_assumed_blockchain_size := 200
    m_assumed_chain_state_size := 20
    genesis := genesisCall env
    vSeeds := ["scalenet-seed-bch.bitcoinforks.org", "scalenet-seed-bch.toom.im",
               "seed.sbch.loping.net"]
    base58Prefixes :=
      { PUBKEY_ADDRESS := List.replicate 1 111
        SCRIPT_ADDRESS := List.replicate 1 196
        SECRET_KEY := List.replicate 1 239
        EXT_PUBLIC_KEY := [0x04, 0x35, 0x87, 0xCF]
        EXT_SECRET_KEY := [0x04, 0x35, 0x83, 0x94] }
    cashaddrPrefix := "bchtest"
    vFixedSeeds := env.pnSeed6_scalenet
    fDefaultConsistencyChecks := false
    fRequireStandard := false
    m_is_test_chain := true
    checkpointData := []
    chainTxData := { nTime := 0, nTxCount := 0, dTxRate := 0 } }

/-- The constructor `CScaleNetParams()`: the assignments of
`CScaleNetParams.fields` read by three assertions (block sizes, genesis hash,
merkle root); a failed assertion aborts. -/
def CScaleNetParams (env : Env) : Outcome CChainParams :=
  let p := CScaleNetParams.fields env
  if ¬ (p.consensus.nDefaultGeneratedBlockSize ≤ p.consensus.nDefaultExcessiveBlockSize) then
    Outcome.abort
  else if ¬ (p.consensus.hashGenesisBlock = genesisHashExpected) then
    Outcome.abort
  else if ¬ (p.genesis.hashMerkleRoot = genesisMerkleRootExpected) then
    Outcome.abort
  else
    Outcome.ok p

/-- The fields `CRegTestParams()` assigns.  The constructor never assigns
`asertAnchorParams`, which keeps the empty state of a fresh optional. -/
def CRegTestParams.fields (env : Env) : CChainParams :=
  { strNetworkID := CBaseChainParams.REGTEST
    consensus :=
      { nSubsidyHalvingInterval := 150
        BIP16Height := 0
        BIP34Height := 100000000
        BIP34Hash := 0
        BIP65Height := 1351
        BIP66Height := 1251
        CSVHeight := 576
        powLimit := 0x7fffffffffffffffffffffffffffffffffffffffffffffffffffffffffffffff
        nPowTargetTimespan := 14 * 24 * 60 * 60
        nPowTargetSpacing := 10 * 60
        fPowAllowMinDifficultyBlocks := true
        fPowNoRetargeting := true
        nASERTHalfLife := 2 * 24 * 60 * 60
        nMinimumChainWork := 0x00
        defaultAssumeValid := 0
        uahfHeight := 0
        daaHeight := 0
        magneticAnomalyHeight := 0
        gravitonHeight := 0
        phononHeight := 0
        axionActivationTime := 1605441600
        upgrade8ActivationTime := 1652616000
        upgrade9ActivationTime := 1684152000
        nDefaultExcessiveBlockSize := env.DEFAULT_EXCESSIVE_BLOCK_SIZE
        nDefaultGeneratedBlockSize := (8 * env.ONE_MEGABYTE) % 2 ^ 64
        asertAnchorParams := none
        hashGenesisBlock := env.GetHash (genesisCall env).toCBlockHeader }
    diskMagic := [0xfa, 0xbf, 0xb5, 0xda]
    netMagic := [0xe4, 0xe2, 0xf4, 0xe9]
    nDefaultPort := 18444
    nPruneAfterHeight := 1000
    m_assumed_blockchain_size := 0
    m_assumed_chain_state_size := 0
    genesis := genesisCall env
    vSeeds := []
    vFixedSeeds := []
    fDefaultConsistencyChecks := true
    fRequireStandard := true
    m_is_test_chain := true
    checkpointData := []
    chainTxData := { nTime := 0, nTxCount := 0, dTxRate := 0 }
    base58Prefixes :=
      { PUBKEY_ADDRESS := List.replicate 1 111
        SCRIPT_ADDRESS := List.replicate 1 196
        SECRET_KEY := List.replicate 1 239
        EXT_PUBLIC_KEY := [0x04, 0x35, 0x87, 0xCF]
        EXT_SECRET_KEY := [0x04, 0x35, 0x83, 0x94] }
    cashaddrPrefix := "bchreg" }

/-- The constructor `CRegTestParams()`: the assignments of
`CRegTestParams.fields` read by three assertions (block sizes, genesis hash,
merkle root); a failed assertion aborts. -/
def CRegTestParams (env : Env) : Outcome CChainParams :=
  let p := CRegTestParams.fields env
  if ¬ (p.consensus.nDefaultGeneratedBlockSize ≤ p.consensus.nDefaultExcessiveBlockSize) then
    Outcome.abort
  else if ¬ (p.consensus.hashGenesisBlock = genesisHashExpected) then
    Outcome.abort
  else if ¬ (p.genesis.hashMerkleRoot = genesisMerkleRootExpected) then
    Outcome.abort
  else
    Outcome.ok p

/-! ## Selection of the active parameters (chainparams.cpp, lines 774-809) -/

/-- The process-wide variables of `chainparams.cpp`: `globalChainParams`, a
`std::unique_ptr` that is null until a selection succeeds. -/
structure Globals where
  globalChainParams : Option CChainParams
deriving DecidableEq

/-- The state at process start: nothing selected. -/
def Globals.initial : Globals :=
  { globalChainParams := none }

/-- The accessor `Params()`: asserts that a profile is selected and returns
it. -/
def Params (g : Globals) : Outcome CChainParams :=
  match g.globalChainParams with
  | none => Outcome.abort
  | some p => Outcome.ok p

/-- The message `strprintf("%s: Unknown chain %s.", __func__, chain)` built in
`CreateChainParams`. -/
def unknownChainMessage (chain : String) : String :=
  "CreateChainParams: Unknown chain " ++ chain ++ "."

/-- The factory `CreateChainParams(chain)`. -/
def CreateChainParams (env : Env) (chain : String) : Outcome CChainParams :=
  if chain = CBaseChainParams.MAIN then
    CMainParams env
  else if chain = CBaseChainParams.TESTNET then
    CTestNetParams env
  else if chain = CBaseChainParams.TESTNET4 then
    CTestNet4Params env
  else if chain = CBaseChainParams.REGTEST then
    CRegTestParams env
  else if chain = CBaseChainParams.SCALENET then
    CScaleNetParams env
  else
    Outcome.threw (unknownChainMessage chain)

/-- The procedure `SelectParams(network)`: `SelectBaseParams(network)` runs
first; then the profile is created and stored.  When either call throws or
aborts, the assignment to `globalChainParams` is not reached. -/
def SelectParams (env : Env) (network : String) (g : Globals) : Outcome Unit × Globals :=
  match env.SelectBaseParams network with
  | Outcome.threw what => (Outcome.threw what, g)
  | Outcome.abort => (Outcome.abort, g)
  | Outcome.ok _ =>
    match CreateChainParams env network with
    | Outcome.threw what => (Outcome.threw what, g)
    | Outcome.abort => (Outcome.abort, g)
    | Outcome.ok p => (Outcome.ok (), { g with globalChainParams := some p })

/-! ## Node configuration (config.cpp) -/

/-- The mutable fields of `GlobalConfig`. -/
structure GlobalConfig where
  useCashAddr : Bool
  excessUTXOCharge : Amount
  nExcessiveBlockSize : Nat
  nMaxMemPoolSize : Nat
deriving DecidableEq

/-- The constructor `GlobalConfig::GlobalConfig()`.  The member
`excessUTXOCharge` has no initialiser in the constructor; it is a
default-constructed `Amount`, "initialized to zero". -/
def GlobalConfig.new (env : Env) : GlobalConfig :=
  { useCashAddr := env.DEFAULT_USE_CASHADDR
    nExcessiveBlockSize := env.DEFAULT_EXCESSIVE_BLOCK_SIZE
    nMaxMemPoolSize :=
      (env.DEFAULT_EXCESSIVE_BLOCK_SIZE * env.DEFAULT_MAX_MEMPOOL_SIZE_PER_MB) % 2 ^ 64
    excessUTXOCharge := 0 }

/-- The setter `GlobalConfig::SetExcessiveBlockSize(blockSize)`: the returned
flag and the configuration afterwards. -/
def GlobalConfig.SetExcessiveBlockSize (c : GlobalConfig) (blockSize : Nat) :
    Bool × GlobalConfig :=
  if blockSize ≤ LEGACY_MAX_BLOCK_SIZE then
    (false, c)
  else
    (true, { c with nExcessiveBlockSize := blockSize })

/-- The getter `GlobalConfig::GetExcessiveBlockSize()`. -/
def GlobalConfig.GetExcessiveBlockSize (c : GlobalConfig) : Nat :=
  c.nExcessiveBlockSize

/-- The getter `GlobalConfig::GetChainParams()`, which is `Params()`. -/
def GlobalConfig.GetChainParams (_c : GlobalConfig) (g : Globals) : Outcome CChainParams :=
  Params g

/-- The setter `GlobalConfig::SetCashAddrEncoding(c)`. -/
def GlobalConfig.SetCashAddrEncoding (cfg : GlobalConfig) (c : Bool) : GlobalConfig :=
  { cfg with useCashAddr := c }

/-- The getter `GlobalConfig::UseCashAddrEncoding()`. -/
def GlobalConfig.UseCashAddrEncoding (cfg : GlobalConfig) : Bool :=
  cfg.useCashAddr

/-- The setter `GlobalConfig::SetExcessUTXOCharge(fee)`. -/
def GlobalConfig.SetExcessUTXOCharge (cfg : GlobalConfig) (fee : Amount) : GlobalConfig :=
  { cfg with excessUTXOCharge := fee }

/-- The getter `GlobalConfig::GetExcessUTXOCharge()`. -/
def GlobalConfig.GetExcessUTXOCharge (cfg : GlobalConfig) : Amount :=
  cfg.excessUTXOCharge

/-! ## A concrete environment: wire encoding and double SHA-256 -/

/-- The `n` low bytes of `x`, least significant first. -/
def leBytes (n x : Nat) : List Nat :=
  (List.range n).map (fun i => (x >>> (8 * i)) % 256)

/-- The `n` low bytes of `x`, most significant first. -/
def beBytes (n x : Nat) : List Nat :=
  (List.range n).map (fun i => (x >>> (8 * (n - 1 - i))) % 256)

/-- The number a byte string denotes, least significant byte first. -/
def leNat : List Nat → Nat
  | [] => 0
  | b :: bs => b + 256 * leNat bs

namespace SHA256

/-- The sixty-four round constants of SHA-256, eight to a row. -/
def K : List Nat :=
  List.flatten
    [[0x428a2f98, 0x71374491, 0xb5c0fbcf, 0xe9b5dba5, 0x3956c25b, 0x59f111f1, 0x923f82a4, 0xab1c5ed5],
     [0xd807aa98, 0x12835b01, 0x243185be, 0x550c7dc3, 0x72be5d74, 0x80deb1fe, 0x9bdc06a7, 0xc19bf174],
     [0xe49b69c1, 0xefbe4786, 0x0fc19dc6, 0x240ca1cc, 0x2de92c6f, 0x4a7484aa, 0x5cb0a9dc, 0x76f988da],
     [0x983e5152, 0xa831c66d, 0xb00327c8, 0xbf597fc7, 0xc6e00bf3, 0xd5a79147, 0x06ca6351, 0x14292967],
     [0x27b70a85, 0x2e1b2138, 0x4d2c6dfc, 0x53380d13, 0x650a7354, 0x766a0abb, 0x81c2c92e, 0x92722c85],
     [0xa2bfe8a1, 0xa81a664b, 0xc24b8b70, 0xc76c51a3, 0xd192e819, 0xd6990624, 0xf40e3585, 0x106aa070],
     [0x19a4c116, 0x1e376c08, 0x2748774c, 0x34b0bcb5, 0x391c0cb3, 0x4ed8aa4a, 0x5b9cca4f, 0x682e6ff3],
     [0x748f82ee, 0x78a5636f, 0x84c87814, 0x8cc70208, 0x90befffa, 0xa4506ceb, 0xbef9a3f7, 0xc67178f2]]

/-- Rotation of a 32-bit word to the right. -/
def rotr (x n : Nat) : Nat :=
  ((x >>> n) ||| (x <<< (32 - n))) % 4294967296

/-- The function Σ0 of the compression round. -/
def bigSigma0 (x : Nat) : Nat := rotr x 2 ^^^ rotr x 13 ^^^ rotr x 22

/-- The function Σ1 of the compression round. -/
def bigSigma1 (x : Nat) : Nat := rotr x 6 ^^^ rotr x 11 ^^^ rotr x 25

/-- The function σ0 of the message schedule. -/
def smallSigma0 (x : Nat) : Nat := rotr x 7 ^^^ rotr x 18 ^^^ (x >>> 3)

/-- The function σ1 of the message schedule. -/
def smallSigma1 (x : Nat) : Nat := rotr x 17 ^^^ rotr x 19 ^^^ (x >>> 10)

/-- The choice function. -/
def Ch (x y z : Nat) : Nat := (x &&& y) ^^^ ((4294967295 - x) &&& z)

/-- The majority function. -/
def Maj (x y z : Nat) : Nat := (x &&& y) ^^^ (x &&& z) ^^^ (y &&& z)

/-- The eight working words. -/
structure State where
  a : Nat
  b : Nat
  c : Nat
  d : Nat
  e : Nat
  f : Nat
  g : Nat
  h : Nat
deriving DecidableEq

/-- One round, with round constant `k` and schedule word `w`. -/
def round (s : State) (k w : Nat) : State :=
  let t1 := (s.h + bigSigma1 s.e + Ch s.e s.f s.g + k + w) % 4294967296
  let t2 := (bigSigma0 s.a + Maj s.a s.b s.c) % 4294967296
  { a := (t1 + t2) % 4294967296, b := s.a, c := s.b, d := s.c,
    e := (s.d + t1) % 4294967296, f := s.e, g := s.f, h := s.g }

/-- The schedule word that follows a window of sixteen. -/
def nextW (w : List Nat) : Nat :=
  (smallSigma1 (w.getD 14 0) + w.getD 9 0 + smallSigma0 (w.getD 1 0) + w.getD 0 0) % 4294967296

/-- The rounds for the remaining constants; `w` is the sliding window of the
sixteen schedule words starting at the current round. -/
def rounds : List Nat → State → List Nat → State
  | [], s, _ => s
  | k :: ks, s, w => rounds ks (round s k (w.getD 0 0)) (w.drop 1 ++ [nextW w])

/-- Compression of one block of sixteen words into the chaining value. -/
def compress (h : State) (w : List Nat) : State :=
  let s := rounds K h w
  { a := (h.a + s.a) % 4294967296, b := (h.b + s.b) % 4294967296,
    c := (h.c + s.c) % 4294967296, d := (h.d + s.d) % 4294967296,
    e := (h.e + s.e) % 4294967296, f := (h.f + s.f) % 4294967296,
    g := (h.g + s.g) % 4294967296, h := (h.h + s.h) % 4294967296 }

/-- A big-endian word from four bytes. -/
def beWord : List Nat → Nat
  | [b0, b1, b2, b3] => b0 * 16777216 + b1 * 65536 + b2 * 256 + b3
  | _ => 0

/-- The first `n` big-endian words of a byte string. -/
def words : Nat → List Nat → List Nat
  | 0, _ => []
  | n + 1, bs => beWord (bs.take 4) :: words n (bs.drop 4)

/-- Compression of `n` consecutive 64-byte blocks. -/
def blocks : Nat → State → List Nat → State
  | 0, h, _ => h
  | n + 1, h, bs => blocks n (compress h (words 16 (bs.take 64))) (bs.drop 64)

/-- Padding: a one bit, zeros, and the bit length on eight bytes. -/
def pad (m : List Nat) : List Nat :=
  m ++ [128] ++ List.replicate ((119 - m.length % 64) % 64) 0 ++ beBytes 8 (8 * m.length)

/-- The initial chaining value. -/
def H0 : State :=
  { a := 0x6a09e667, b := 0xbb67ae85, c := 0x3c6ef372, d := 0xa54ff53a,
    e := 0x510e527f, f := 0x9b05688c, g := 0x1f83d9ab, h := 0x5be0cd19 }

/-- Modelled from the spec: the hash function of `crypto/sha256.cpp` (absent)
behind the recorded "genesis hash" and "merkle root".  The spec fixes only the
digests; the algorithm is SHA-256 as standardised (padding, sixty-four rounds
per 64-byte block, big-endian output of the eight chaining words). -/
def hash (m : List Nat) : List Nat :=
  let p := pad m
  let s := blocks (p.length / 64) H0 p
  beBytes 4 s.a ++ beBytes 4 s.b ++ beBytes 4 s.c ++ beBytes 4 s.d ++
  beBytes 4 s.e ++ beBytes 4 s.f ++ beBytes 4 s.g ++ beBytes 4 s.h

end SHA256

/-- Modelled from the spec: the hash used for "genesis hash" and "merkle root"
(`hash.h`, absent): SHA-256 applied twice, the digest read as a 256-bit number
with the least significant byte first. -/
def Hash256 (m : List Nat) : uint256 :=
  leNat (SHA256.hash (SHA256.hash m))

/-- The `w`-byte two's complement encoding of a signed integer, least
significant byte first. -/
def leInt (w : Nat) (v : Int) : List Nat :=
  leBytes w (v % (2 : Int) ^ (8 * w)).toNat

/-- Modelled from the spec: the length marker `WriteCompactSize` of
`serialize.h` (absent) that precedes a vector on the wire. -/
def WriteCompactSize (n : Nat) : List Nat :=
  if n < 253 then [n]
  else if n ≤ 0xffff then 253 :: leBytes 2 n
  else if n ≤ 0xffffffff then 254 :: leBytes 4 n
  else 255 :: leBytes 8 n

/-- Modelled from the spec: the wire encoding of a script (`serialize.h`,
absent): its length, then its bytes. -/
def serializeScript (s : CScript) : List Nat :=
  WriteCompactSize s.length ++ s

/-- Modelled from the spec: the wire encoding of an input
(`primitives/transaction.h`, absent): previous output, script, sequence
number. -/
def serializeTxIn (i : CTxIn) : List Nat :=
  leBytes 32 i.prevout.hash ++ leBytes 4 i.prevout.n ++ serializeScript i.scriptSig ++
    leBytes 4 i.nSequence

/-- Modelled from the spec: the wire encoding of an output
(`primitives/transaction.h`, absent): value on eight bytes, then the script. -/
def serializeTxOut (o : CTxOut) : List Nat :=
  leInt 8 o.nValue ++ serializeScript o.scriptPubKey

/-- Modelled from the spec: the wire encoding of a transaction
(`primitives/transaction.h`, absent) that its hash is taken over: version,
inputs, outputs, lock time. -/
def serializeTx (tx : CTransaction) : List Nat :=
  leInt 4 tx.nVersion ++
    WriteCompactSize tx.vin.length ++ (tx.vin.map serializeTxIn).flatten ++
    WriteCompactSize tx.vout.length ++ (tx.vout.map serializeTxOut).flatten ++
    leBytes 4 tx.nLockTime

/-- Modelled from the spec: the 80-byte wire encoding of a block header
(`primitives/block.h`, absent): "header fields (time, nonce, difficulty-bits,
version, zero previous-hash, merkle root)" in wire order. -/
def serializeHeader (h : CBlockHeader) : List Nat :=
  leInt 4 h.nVersion ++ leBytes 32 h.hashPrevBlock ++ leBytes 32 h.hashMerkleRoot ++
    leBytes 4 h.nTime ++ leBytes 4 h.nBits ++ leBytes 4 h.nNonce

/-- The bytes of a positive number, least significant first, without leading
zeros; at most `fuel` of them. -/
def magnitudeBytes : Nat → Nat → List Nat
  | 0, _ => []
  | fuel + 1, n => if n = 0 then [] else (n % 256) :: magnitudeBytes fuel (n / 256)

/-- Modelled from the spec: `CScriptNum::serialize` of `script/script.h`
(absent), the byte form of one of the "two small integers": magnitude bytes,
least significant first, the sign in the top bit of the last byte, with an
extra byte when that bit is taken. -/
def CScriptNum.serialize (value : Int) : List Nat :=
  if value = 0 then []
  else
    let result := magnitudeBytes 8 value.natAbs
    if result.getLastD 0 &&& 128 ≠ 0 then
      result ++ [if value < 0 then 128 else 0]
    else if value < 0 then
      result.dropLast ++ [result.getLastD 0 ||| 128]
    else
      result

/-- Modelled from the spec: the operator `CScript << std::vector<uint8_t>` of
`script/script.h` (absent), which embeds "the raw timestamp bytes as an
embedded payload": a length marker, then the bytes. -/
def CScript.pushBytes (s : CScript) (b : List Nat) : CScript :=
  if b.length < 76 then s ++ [b.length] ++ b
  else if b.length ≤ 0xff then s ++ [76, b.length] ++ b
  else if b.length ≤ 0xffff then s ++ [77] ++ leBytes 2 b.length ++ b
  else s ++ [78] ++ leBytes 4 b.length ++ b

/-- Modelled from the spec: the operator `CScript << CScriptNum` of
`script/script.h` (absent): the serialised number, pushed as data. -/
def CScript.pushScriptNum (s : CScript) (n : Int) : CScript :=
  CScript.pushBytes s (CScriptNum.serialize n)

/-- Modelled from the spec: the operator `CScript << ScriptInt` of
`script/script.h` (absent): small numbers have an opcode of their own, any
other is pushed in serialised form. -/
def CScript.pushScriptInt (s : CScript) (n : Int) : CScript :=
  if n = -1 ∨ (1 ≤ n ∧ n ≤ 16) then s ++ [(n + 80).toNat]
  else if n = 0 then s ++ [0]
  else CScript.pushBytes s (CScriptNum.serialize n)

/-- Modelled from the spec: the operator `CScript << opcodetype` of
`script/script.h` (absent): the opcode byte is appended. -/
def CScript.pushOpcode (s : CScript) (op : Nat) : CScript :=
  s ++ [op]

/-- A sample `SelectBaseParams`: it returns for the five network names and
throws for any other. -/
def sampleSelectBaseParams (chain : String) : Outcome Unit :=
  if chain = CBaseChainParams.MAIN ∨ chain = CBaseChainParams.TESTNET ∨
      chain = CBaseChainParams.TESTNET4 ∨ chain = CBaseChainParams.REGTEST ∨
      chain = CBaseChainParams.SCALENET then
    Outcome.ok ()
  else
    Outcome.threw ("CreateBaseChainParams: Unknown chain " ++ chain ++ ".")

/-- A concrete environment: hashing is double SHA-256 over the wire encoding,
scripts are built by the encoders above, one megabyte is 1,000,000 bytes and
the default excessive block size is 32 megabytes; the chain-work constants are
zero and the seed tables empty. -/
def stdEnv : Env :=
  { ONE_MEGABYTE := 1000000
    DEFAULT_EXCESSIVE_BLOCK_SIZE := 32000000
    DEFAULT_MAX_MEMPOOL_SIZE_PER_MB := 10
    DEFAULT_USE_CASHADDR := true
    MAINNET_MINIMUM_CHAIN_WORK := 0
    MAINNET_DEFAULT_ASSUME_VALID := 0
    TESTNET_MINIMUM_CHAIN_WORK := 0
    TESTNET_DEFAULT_ASSUME_VALID := 0
    TESTNET4_MINIMUM_CHAIN_WORK := 0
    TESTNET4_DEFAULT_ASSUME_VALID := 0
    SCALENET_MINIMUM_CHAIN_WORK := 0
    SCALENET_DEFAULT_ASSUME_VALID := 0
    pnSeed6_main := []
    pnSeed6_testnet3 := []
    pnSeed6_testnet4 := []
    pnSeed6_scalenet := []
    pushScriptInt := CScript.pushScriptInt
    pushScriptNum := CScript.pushScriptNum
    pushBytes := CScript.pushBytes
    pushOpcode := CScript.pushOpcode
    GetHash := fun h => Hash256 (serializeHeader h)
    GetId := fun tx => Hash256 (serializeTx tx)
    MerkleHash := fun a b => Hash256 (leBytes 32 a ++ leBytes 32 b)
    SelectBaseParams := sampleSelectBaseParams }

/-- The five network classes of `chainparams.cpp`. -/
inductive Network where
  | main : Network
  | testnet : Network
  | testnet4 : Network
  | scalenet : Network
  | regtest : Network
deriving DecidableEq

/-- The name constant a network class stores in `strNetworkID`. -/
def Network.token : Network → String
  | Network.main => CBaseChainParams.MAIN
  | Network.testnet => CBaseChainParams.TESTNET
  | Network.testnet4 => CBaseChainParams.TESTNET4
  | Network.scalenet => CBaseChainParams.SCALENET
  | Network.regtest => CBaseChainParams.REGTEST

/-- The constructor of a network class. -/
def Network.construct : Network → Env → Outcome CChainParams
  | Network.main => CMainParams
  | Network.testnet => CTestNetParams
  | Network.testnet4 => CTestNet4Params
  | Network.scalenet => CScaleNetParams
  | Network.regtest => CRegTestParams

/-- The fields the constructor of a network class assigns. -/
def Network.fields : Network → Env → CChainParams
  | Network.main => CMainParams.fields
  | Network.testnet => CTestNetParams.fields
  | Network.testnet4 => CTestNet4Params.fields
  | Network.scalenet => CScaleNetParams.fields
  | Network.regtest => CRegTestParams.fields

/-- The five network-name tokens. -/
def networkTokens : List String :=
  [CBaseChainParams.MAIN, CBaseChainParams.TESTNET, CBaseChainParams.TESTNET4,
   CBaseChainParams.SCALENET, CBaseChainParams.REGTEST]

/-- Every one of the five constructors runs to completion in `env`: none of
its assertions fails. -/
def Env.Constructs (env : Env) : Prop :=
  ∀ n : Network, ∃ p, n.construct env = Outcome.ok p

/-- A sequence of `SelectParams` calls, each on the state the previous one
left (a caller that catches the exception of a failed call goes on). -/
def selectAll (env : Env) : List String → Globals → Globals
  | [], g => g
  | t :: ts, g => selectAll env ts (SelectParams env t g).2

/-! ## Fixed seeds from text (chainparams.cpp, lines 811-819) -/

/-- Modelled from the spec: the record `CService` of `netaddress.h` (absent),
an endpoint of "(16-byte address, 2-byte port)". -/
structure CService where
  ip : List Nat
  port : Nat
deriving DecidableEq

/-- Modelled from the spec: the accessor `CService::GetPort` of
`netaddress.h` (absent): the port of the endpoint. -/
def CService.GetPort (service : CService) : Nat :=
  service.port

/-- Modelled from the spec: the conversion `SeedSpec6(service)` of
`chainparams.h` (absent): a seed "with matching address/port". -/
def SeedSpec6.ofService (service : CService) : SeedSpec6 :=
  { addr := service.ip, port := service.port }

/-- What the seed parser takes from `netbase.h` and `netaddress.h`, which are
not among the sources: the numeric lookup and the two address predicates. -/
structure NetBase where
  /-- The call `LookupNumeric(name, portDefault)`. -/
  LookupNumeric : String → Nat → CService
  /-- The predicate `CService::IsValid`. -/
  IsValid : CService → Bool
  /-- The predicate `CService::IsRoutable`. -/
  IsRoutable : CService → Bool

/-- The constructor `SeedSpec6::SeedSpec6(pszHostPort)`: the looked-up
service is checked for validity and a non-zero port, then for routability;
either failure throws `std::invalid_argument` with the message built by
`strprintf`. -/
def SeedSpec6.new (nb : NetBase) (pszHostPort : String) : Outcome SeedSpec6 :=
  let service := nb.LookupNumeric pszHostPort 0
  if !nb.IsValid service || service.GetPort == 0 then
    Outcome.threw ("Unable to parse numeric-IP:port pair: " ++ pszHostPort)
  else if !nb.IsRoutable service then
    Outcome.threw ("Not routable: " ++ pszHostPort)
  else
    Outcome.ok (SeedSpec6.ofService service)

/-- The value of a non-empty string of decimal digits, given the value of the
digits read so far. -/
def parseDigits : Nat → List Char → Option Nat
  | acc, [] => some acc
  | acc, c :: cs => if c.isDigit then parseDigits (10 * acc + (c.toNat - 48)) cs else none

/-- The value of a decimal numeral; anything else has none. -/
def parseDec (cs : List Char) : Option Nat :=
  if cs.isEmpty then none else parseDigits 0 cs

/-- The pieces of a text between occurrences of a separator. -/
def splitAt (sep : Char) : List Char → List (List Char)
  | [] => [[]]
  | c :: cs =>
    if c = sep then [] :: splitAt sep cs
    else
      match splitAt sep cs with
      | [] => [[c]]
      | piece :: pieces => (c :: piece) :: pieces

/-- The four bytes of a dotted-quad IPv4 literal; anything else has none. -/
def parseIPv4 (host : List Char) : Option (List Nat) :=
  match (splitAt (Char.ofNat 46) host).map parseDec with
  | [some a, some b, some c, some d] =>
    if a ≤ 255 ∧ b ≤ 255 ∧ c ≤ 255 ∧ d ≤ 255 then some [a, b, c, d] else none
  | _ => none

/-- The 16-byte form of an IPv4 address. -/
def ipv4Mapped (quad : List Nat) : List Nat :=
  List.replicate 10 0 ++ [255, 255] ++ quad

/-- Modelled from the spec: the value-initialised `CService` of
`netaddress.h` (absent), which a failed lookup returns: the null address with
port zero. -/
def CService.null : CService :=
  { ip := List.replicate 16 0, port := 0 }

/-- Modelled from the spec: `LookupNumeric` of `netbase.h` (absent), for
IPv4 text: "a literal host:port string" whose host is "a syntactically valid
numeric IP literal"; a text without port gets the default port, a port that
is not a numeral of at most 16 bits or a host that is not a literal gives the
null service.  No name is resolved. -/
def specLookupNumeric (name : String) (portDefault : Nat) : CService :=
  match splitAt (Char.ofNat 58) name.data with
  | [host] =>
    match parseIPv4 host with
    | some quad => { ip := ipv4Mapped quad, port := portDefault }
    | none => CService.null
  | [host, port] =>
    match parseIPv4 host, parseDec port with
    | some quad, some n => if n < 65536 then { ip := ipv4Mapped quad, port := n } else CService.null
    | _, _ => CService.null
  | _ => CService.null

/-- The IPv4 bytes of a 16-byte address in IPv4 form. -/
def CService.quad (service : CService) : Option (List Nat) :=
  if service.ip.take 12 = List.replicate 10 0 ++ [255, 255] ∧ service.ip.length = 16 then
    some (service.ip.drop 12)
  else none

/-- Modelled from the spec: `CService::IsValid` of `netaddress.h` (absent),
for IPv4: an address in IPv4 form other than 0.0.0.0 and 255.255.255.255. -/
def specIsValid (service : CService) : Bool :=
  match service.quad with
  | some quad => quad != [0, 0, 0, 0] && quad != [255, 255, 255, 255]
  | none => false

/-- Modelled from the spec: the "non-routable range (loopback, link-local,
private/reserved blocks)" of `netaddress.h` (absent), for IPv4: 0/8, 127/8,
10/8, 172.16/12, 192.168/16, 169.254/16, 100.64/10, 198.18/15 and the three
documentation blocks. -/
def specNonRoutable : List Nat → Bool
  | [a, b, c, _] =>
    a == 0 || a == 127 || a == 10 || (a == 172 && 16 ≤ b && b ≤ 31) ||
      (a == 192 && b == 168) || (a == 169 && b == 254) ||
      (a == 100 && 64 ≤ b && b ≤ 127) || (a == 198 && (b == 18 || b == 19)) ||
      (a == 192 && b == 0 && c == 2) || (a == 198 && b == 51 && c == 100) ||
      (a == 203 && b == 0 && c == 113)
  | _ => true

/-- Modelled from the spec: `CService::IsRoutable` of `netaddress.h`
(absent), for IPv4: valid and outside the non-routable ranges. -/
def specIsRoutable (service : CService) : Bool :=
  specIsValid service &&
    match service.quad with
    | some quad => !specNonRoutable quad
    | none => false

/-- The network helpers as modelled from the spec, for IPv4 text. -/
def specNetBase : NetBase :=
  { LookupNumeric := specLookupNumeric
    IsValid := specIsValid
    IsRoutable := specIsRoutable }

/-! ## Sequences of configuration calls -/

/-- A call of one of the three setters of `GlobalConfig`, with its argument. -/
inductive ConfigCall where
  | SetExcessiveBlockSize (blockSize : Nat) : ConfigCall
  | SetCashAddrEncoding (c : Bool) : ConfigCall
  | SetExcessUTXOCharge (fee : Amount) : ConfigCall
deriving DecidableEq

/-- The configuration after one setter call; a refused block size leaves it
as it was. -/
def GlobalConfig.call (cfg : GlobalConfig) : ConfigCall → GlobalConfig
  | ConfigCall.SetExcessiveBlockSize blockSize => (cfg.SetExcessiveBlockSize blockSize).2
  | ConfigCall.SetCashAddrEncoding c => cfg.SetCashAddrEncoding c
  | ConfigCall.SetExcessUTXOCharge fee => cfg.SetExcessUTXOCharge fee

/-- The configuration after a sequence of setter calls, first call first. -/
def GlobalConfig.run (cfg : GlobalConfig) : List ConfigCall → GlobalConfig
  | [] => cfg
  | call :: calls => GlobalConfig.run (cfg.call call) calls

/-! ## Shared lemmas -/

set_option maxRecDepth 100000

/-- The SHA-256 model on the standard test vector "abc". -/
theorem SHA256_hash_abc :
    SHA256.hash (cstrLit "abc") =
      [0xba, 0x78, 0x16, 0xbf, 0x8f, 0x01, 0xcf, 0xea, 0x41, 0x41, 0x40, 0xde, 0x5d, 0xae, 0x22,
       0x23, 0xb0, 0x03, 0x61, 0xa3, 0x96, 0x17, 0x7a, 0x9c, 0xb4, 0x10, 0xff, 0x61, 0xf2, 0x00,
       0x15, 0xad] := by
  decide

/-- The coinbase script the genesis builder produces in the concrete
environment. -/
theorem stdEnv_genesis_scriptSig :
    ((genesisCall stdEnv).vtx.map fun tx => tx.vin.map fun i => i.scriptSig) =
      [[[4, 0xff, 0xff, 0x00, 0x1d, 1, 4, 10, 0x68, 0x69, 0x20, 0x74, 0x77, 0x69, 0x74, 0x74,
         0x65, 0x72]]] := by
  decide

/-- In the concrete environment the merkle root of the genesis block is the
recorded one. -/
theorem stdEnv_genesis_merkle :
    (genesisCall stdEnv).hashMerkleRoot = genesisMerkleRootExpected := by
  decide

/-- In the concrete environment the hash of the genesis block is the recorded
one. -/
theorem stdEnv_genesis_hash :
    stdEnv.GetHash (genesisCall stdEnv).toCBlockHeader = genesisHashExpected := by
  decide

/-- A chain of three assertions returns exactly when all three hold. -/
theorem assert_chain3 {α : Type} (A B C : Prop) [Decidable A] [Decidable B] [Decidable C]
    (x p : α) :
    (if ¬ A then Outcome.abort else if ¬ B then Outcome.abort
      else if ¬ C then Outcome.abort else Outcome.ok x) = Outcome.ok p ↔
      (A ∧ B ∧ C) ∧ p = x := by
  by_cases hA : A <;> by_cases hB : B <;> by_cases hC : C <;> simp [hA, hB, hC, eq_comm]

/-- A chain of two assertions returns exactly when both hold. -/
theorem assert_chain2 {α : Type} (A B : Prop) [Decidable A] [Decidable B] (x p : α) :
    (if ¬ A then Outcome.abort else if ¬ B then Outcome.abort else Outcome.ok x) =
        Outcome.ok p ↔
      (A ∧ B) ∧ p = x := by
  by_cases hA : A <;> by_cases hB : B <;> simp [hA, hB, eq_comm]

/-- When `CMainParams()` completes: exactly when its three assertions hold, and
then with the assigned fields. -/
theorem CMainParams_ok_iff (env : Env) (p : CChainParams) :
    CMainParams env = Outcome.ok p ↔
      ((8 * env.ONE_MEGABYTE) % 2 ^ 64 ≤ env.DEFAULT_EXCESSIVE_BLOCK_SIZE ∧
        env.GetHash (genesisCall env).toCBlockHeader = genesisHashExpected ∧
        (genesisCall env).hashMerkleRoot = genesisMerkleRootExpected) ∧
      p = CMainParams.fields env :=
  assert_chain3 _ _ _ _ _

/-- When `CTestNetParams()` completes: exactly when its three assertions hold, and
then with the assigned fields. -/
theorem CTestNetParams_ok_iff (env : Env) (p : CChainParams) :
    CTestNetParams env = Outcome.ok p ↔
      ((8 * env.ONE_MEGABYTE) % 2 ^ 64 ≤ env.DEFAULT_EXCESSIVE_BLOCK_SIZE ∧
        env.GetHash (genesisCall env).toCBlockHeader = genesisHashExpected ∧
        (genesisCall env).hashMerkleRoot = genesisMerkleRootExpected) ∧
      p = CTestNetParams.fields env :=
  assert_chain3 _ _ _ _ _

/-- When `CTestNet4Params()` completes: exactly when its two assertions hold, and
then with the assigned fields. -/
theorem CTestNet4Params_ok_iff (env : Env) (p : CChainParams) :
    CTestNet4Params env = Outcome.ok p ↔
      ((2 * env.ONE_MEGABYTE) % 2 ^ 64 ≤ (2 * env.ONE_MEGABYTE) % 2 ^ 64 ∧
        env.GetHash (genesisCall env).toCBlockHeader = genesisHashExpected) ∧
      p = CTestNet4Params.fields env :=
  assert_chain2 _ _ _ _

/-- When `CScaleNetParams()` completes: exactly when its three assertions hold, and
then with the assigned fields. -/
theorem CScaleNetParams_ok_iff (env : Env) (p : CChainParams) :
    CScaleNetParams env = Outcome.ok p ↔
      ((8 * env.ONE_MEGABYTE) % 2 ^ 64 ≤ (256 * env.ONE_MEGABYTE) % 2 ^ 64 ∧
        env.GetHash (genesisCall env).toCBlockHeader = genesisHashExpected ∧
        (genesisCall env).hashMerkleRoot = genesisMerkleRootExpected) ∧
      p = CScaleNetParams.fields env :=
  assert_chain3 _ _ _ _ _

/-- When `CRegTestParams()` completes: exactly when its three assertions hold, and
then with the assigned fields. -/
theorem CRegTestParams_ok_iff (env : Env) (p : CChainParams) :
    CRegTestParams env = Outcome.ok p ↔
      ((8 * env.ONE_MEGABYTE) % 2 ^ 64 ≤ env.DEFAULT_EXCESSIVE_BLOCK_SIZE ∧
        env.GetHash (genesisCall env).toCBlockHeader = genesisHashExpected ∧
        (genesisCall env).hashMerkleRoot = genesisMerkleRootExpected) ∧
      p = CRegTestParams.fields env :=
  assert_chain3 _ _ _ _ _

/-- A constructor that completes returns the fields it assigns. -/
theorem construct_ok_fields (env : Env) (n : Network) (p : CChainParams)
    (h : n.construct env = Outcome.ok p) : p = n.fields env := by
  cases n
  · exact ((CMainParams_ok_iff env p).1 h).2
  · exact ((CTestNetParams_ok_iff env p).1 h).2
  · exact ((CTestNet4Params_ok_iff env p).1 h).2
  · exact ((CScaleNetParams_ok_iff env p).1 h).2
  · exact ((CRegTestParams_ok_iff env p).1 h).2

/-- A constructor never throws: it returns or aborts. -/
theorem construct_ok_or_abort (env : Env) (n : Network) :
    n.construct env = Outcome.ok (n.fields env) ∨ n.construct env = Outcome.abort := by
  cases n <;>
    simp only [Network.construct, Network.fields, CMainParams, CTestNetParams, CTestNet4Params,
      CScaleNetParams, CRegTestParams] <;>
    split_ifs <;> simp

/-- The factory dispatches each of the five tokens to its constructor. -/
theorem CreateChainParams_token (env : Env) (n : Network) :
    CreateChainParams env n.token = n.construct env := by
  cases n <;> simp [CreateChainParams, Network.token, Network.construct, CBaseChainParams.MAIN,
    CBaseChainParams.TESTNET, CBaseChainParams.TESTNET4, CBaseChainParams.SCALENET,
    CBaseChainParams.REGTEST]

/-- A string is one of the five tokens exactly when a network class has it as
its name. -/
theorem mem_networkTokens (t : String) : t ∈ networkTokens ↔ ∃ n : Network, n.token = t := by
  constructor
  · intro h
    simp only [networkTokens, List.mem_cons, List.mem_singleton, List.not_mem_nil, or_false] at h
    rcases h with h | h | h | h | h
    · exact ⟨Network.main, h.symm⟩
    · exact ⟨Network.testnet, h.symm⟩
    · exact ⟨Network.testnet4, h.symm⟩
    · exact ⟨Network.scalenet, h.symm⟩
    · exact ⟨Network.regtest, h.symm⟩
  · rintro ⟨n, rfl⟩
    cases n <;> simp [networkTokens, Network.token]

/-- Any string outside the five tokens makes the factory throw. -/
theorem CreateChainParams_unknown (env : Env) (t : String) (h : t ∉ networkTokens) :
    CreateChainParams env t = Outcome.threw (unknownChainMessage t) := by
  simp only [networkTokens, List.mem_cons, List.mem_singleton, List.not_mem_nil, or_false,
    not_or] at h
  obtain ⟨h1, h2, h3, h4, h5⟩ := h
  simp [CreateChainParams, h1, h2, h3, h4, h5]

/-- In the concrete environment every constructor completes. -/
theorem stdEnv_constructs : stdEnv.Constructs := by
  intro n
  refine ⟨n.fields stdEnv, ?_⟩
  cases n
  · exact (CMainParams_ok_iff stdEnv _).2
      ⟨⟨by decide, stdEnv_genesis_hash, stdEnv_genesis_merkle⟩, rfl⟩
  · exact (CTestNetParams_ok_iff stdEnv _).2
      ⟨⟨by decide, stdEnv_genesis_hash, stdEnv_genesis_merkle⟩, rfl⟩
  · exact (CTestNet4Params_ok_iff stdEnv _).2 ⟨⟨by decide, stdEnv_genesis_hash⟩, rfl⟩
  · exact (CScaleNetParams_ok_iff stdEnv _).2
      ⟨⟨by decide, stdEnv_genesis_hash, stdEnv_genesis_merkle⟩, rfl⟩
  · exact (CRegTestParams_ok_iff stdEnv _).2
      ⟨⟨by decide, stdEnv_genesis_hash, stdEnv_genesis_merkle⟩, rfl⟩

/-- A selection whose two calls return stores the created profile. -/
theorem SelectParams_of_ok (env : Env) (t : String) (g : Globals) (p : CChainParams)
    (hb : env.SelectBaseParams t = Outcome.ok ()) (hc : CreateChainParams env t = Outcome.ok p) :
    SelectParams env t g = (Outcome.ok (), { g with globalChainParams := some p }) := by
  simp [SelectParams, hb, hc]

/-- A selection that returns has created the profile it stored. -/
theorem SelectParams_ok_inv (env : Env) (t : String) (g : Globals)
    (h : (SelectParams env t g).1 = Outcome.ok ()) :
    ∃ p, CreateChainParams env t = Outcome.ok p ∧
      (SelectParams env t g).2 = { g with globalChainParams := some p } := by
  unfold SelectParams at h ⊢
  cases hb : env.SelectBaseParams t with
  | threw w => simp [hb] at h
  | abort => simp [hb] at h
  | ok u =>
    cases hc : CreateChainParams env t with
    | threw w => simp [hb, hc] at h
    | abort => simp [hb, hc] at h
    | ok p => exact ⟨p, rfl, by simp⟩

/-- A selection that does not return leaves the process-wide state as it
was. -/
theorem SelectParams_fail_state (env : Env) (t : String) (g : Globals)
    (h : (SelectParams env t g).1 ≠ Outcome.ok ()) : (SelectParams env t g).2 = g := by
  unfold SelectParams at h ⊢
  cases hb : env.SelectBaseParams t with
  | threw w => simp
  | abort => simp
  | ok u =>
    cases hc : CreateChainParams env t with
    | threw w => simp
    | abort => simp
    | ok p => simp [hb, hc] at h

/-- What a completed construction has checked: the genesis hash for every
network, the merkle root for every network but testnet4, and the block sizes. -/
theorem construct_ok_checks (env : Env) (n : Network) (p : CChainParams)
    (h : n.construct env = Outcome.ok p) :
    p.consensus.hashGenesisBlock = genesisHashExpected ∧
      (n ≠ Network.testnet4 → p.genesis.hashMerkleRoot = genesisMerkleRootExpected) ∧
      p.consensus.nDefaultGeneratedBlockSize ≤ p.consensus.nDefaultExcessiveBlockSize := by
  cases n
  · obtain ⟨⟨h1, h2, h3⟩, rfl⟩ := (CMainParams_ok_iff env p).1 h
    exact ⟨h2, fun _ => h3, h1⟩
  · obtain ⟨⟨h1, h2, h3⟩, rfl⟩ := (CTestNetParams_ok_iff env p).1 h
    exact ⟨h2, fun _ => h3, h1⟩
  · obtain ⟨⟨h1, h2⟩, rfl⟩ := (CTestNet4Params_ok_iff env p).1 h
    exact ⟨h2, fun hne => absurd rfl hne, h1⟩
  · obtain ⟨⟨h1, h2, h3⟩, rfl⟩ := (CScaleNetParams_ok_iff env p).1 h
    exact ⟨h2, fun _ => h3, h1⟩
  · obtain ⟨⟨h1, h2, h3⟩, rfl⟩ := (CRegTestParams_ok_iff env p).1 h
    exact ⟨h2, fun _ => h3, h1⟩

/-- A constructor that does not complete has aborted. -/
theorem construct_abort_of_not_ok (env : Env) (n : Network)
    (h : ∀ p, n.construct env ≠ Outcome.ok p) : n.construct env = Outcome.abort := by
  rcases construct_ok_or_abort env n with h1 | h1
  · exact absurd h1 (h _)
  · exact h1

/-! ## The claims -/

/-- C1: for every configuration and every block size `x` at or below the
legacy limit of 1,000,000 (the limit itself and zero included),
`SetExcessiveBlockSize x` returns false and `GetExcessiveBlockSize` returns
afterwards what it returned before; the configuration as a whole is
unchanged. -/
theorem C1_SetExcessiveBlockSize_rejects (c : GlobalConfig) (x : Nat) (hx : x ≤ 1000000) :
    (c.SetExcessiveBlockSize x).1 = false ∧
      (c.SetExcessiveBlockSize x).2.GetExcessiveBlockSize = c.GetExcessiveBlockSize ∧
      (c.SetExcessiveBlockSize x).2 = c := by
  have h : x ≤ LEGACY_MAX_BLOCK_SIZE := hx
  simp [GlobalConfig.SetExcessiveBlockSize, h]

/-- Witness of C1 at the limit itself, on a fresh configuration. -/
theorem C1_SetExcessiveBlockSize_rejects_witness :
    (1000000 : Nat) ≤ 1000000 ∧
      ((GlobalConfig.new stdEnv).SetExcessiveBlockSize 1000000).1 = false ∧
      ((GlobalConfig.new stdEnv).SetExcessiveBlockSize 1000000).2.GetExcessiveBlockSize =
        (GlobalConfig.new stdEnv).GetExcessiveBlockSize ∧
      ((GlobalConfig.new stdEnv).SetExcessiveBlockSize 1000000).2 = GlobalConfig.new stdEnv :=
  ⟨by decide, C1_SetExcessiveBlockSize_rejects (GlobalConfig.new stdEnv) 1000000 (by decide)⟩

/-- C2: for every configuration and every block size `x` above 1,000,000
(every 64-bit value among them, 1,000,001 being the least),
`SetExcessiveBlockSize x` returns true and `GetExcessiveBlockSize` returns
exactly `x` afterwards. -/
theorem C2_SetExcessiveBlockSize_accepts (c : GlobalConfig) (x : Nat) (hx : 1000000 < x) :
    (c.SetExcessiveBlockSize x).1 = true ∧
      (c.SetExcessiveBlockSize x).2.GetExcessiveBlockSize = x := by
  have h : ¬ x ≤ LEGACY_MAX_BLOCK_SIZE := by
    simp only [LEGACY_MAX_BLOCK_SIZE]
    omega
  simp [GlobalConfig.SetExcessiveBlockSize, GlobalConfig.GetExcessiveBlockSize, h]

/-- Witness of C2 at 1,000,001, on a fresh configuration. -/
theorem C2_SetExcessiveBlockSize_accepts_witness :
    (1000000 : Nat) < 1000001 ∧
      ((GlobalConfig.new stdEnv).SetExcessiveBlockSize 1000001).1 = true ∧
      ((GlobalConfig.new stdEnv).SetExcessiveBlockSize 1000001).2.GetExcessiveBlockSize =
        1000001 :=
  ⟨by decide,
    C2_SetExcessiveBlockSize_accepts (GlobalConfig.new stdEnv) 1000001 (by decide)⟩

/-- C3, as stated, fails: with testnet4 selected and active, a fresh
configuration reports 32,000,000 while the active profile's default excessive
block size is 2,000,000; with scalenet the profile's default is 256,000,000. -/
theorem C3_counterexample :
    SelectParams stdEnv "testnet4" Globals.initial =
        (Outcome.ok (), { globalChainParams := some (CTestNet4Params.fields stdEnv) }) ∧
      Params { globalChainParams := some (CTestNet4Params.fields stdEnv) } =
        Outcome.ok (CTestNet4Params.fields stdEnv) ∧
      (CTestNet4Params.fields stdEnv).consensus.nDefaultExcessiveBlockSize = 2000000 ∧
      (GlobalConfig.new stdEnv).GetExcessiveBlockSize = 32000000 ∧
      (GlobalConfig.new stdEnv).GetExcessiveBlockSize ≠
        (CTestNet4Params.fields stdEnv).consensus.nDefaultExcessiveBlockSize ∧
      CreateChainParams stdEnv "scalenet" = Outcome.ok (CScaleNetParams.fields stdEnv) ∧
      (CScaleNetParams.fields stdEnv).consensus.nDefaultExcessiveBlockSize = 256000000 := by
  have h4 : CreateChainParams stdEnv "testnet4" = Outcome.ok (CTestNet4Params.fields stdEnv) :=
    (CreateChainParams_token stdEnv Network.testnet4).trans
      ((CTestNet4Params_ok_iff stdEnv _).2 ⟨⟨by decide, stdEnv_genesis_hash⟩, rfl⟩)
  have hs : CreateChainParams stdEnv "scalenet" = Outcome.ok (CScaleNetParams.fields stdEnv) :=
    (CreateChainParams_token stdEnv Network.scalenet).trans
      ((CScaleNetParams_ok_iff stdEnv _).2
        ⟨⟨by decide, stdEnv_genesis_hash, stdEnv_genesis_merkle⟩, rfl⟩)
  refine ⟨?_, rfl, by decide, rfl, by decide, hs, by decide⟩
  exact SelectParams_of_ok stdEnv "testnet4" Globals.initial _ (by decide) h4

/-- C3, amended: a fresh configuration reports the constant
`DEFAULT_EXCESSIVE_BLOCK_SIZE`, whichever profile is active.  When the active
profile is that of main, testnet or regtest, this is the profile's default
excessive block size; the profile of testnet4 has `2 * ONE_MEGABYTE` and that
of scalenet `256 * ONE_MEGABYTE`, which are not the same value when one
megabyte is positive and 256 of them fit 64 bits. -/
theorem C3_fresh_config_reports_constant (env : Env) (n : Network) (g : Globals)
    (p : CChainParams) (hn : CreateChainParams env n.token = Outcome.ok p)
    (hp : Params g = Outcome.ok p) :
    (GlobalConfig.new env).GetExcessiveBlockSize = env.DEFAULT_EXCESSIVE_BLOCK_SIZE ∧
      (n = Network.main ∨ n = Network.testnet ∨ n = Network.regtest →
        (GlobalConfig.new env).GetExcessiveBlockSize =
          p.consensus.nDefaultExcessiveBlockSize) ∧
      (n = Network.testnet4 →
        p.consensus.nDefaultExcessiveBlockSize = (2 * env.ONE_MEGABYTE) % 2 ^ 64) ∧
      (n = Network.scalenet →
        p.consensus.nDefaultExcessiveBlockSize = (256 * env.ONE_MEGABYTE) % 2 ^ 64) ∧
      (0 < env.ONE_MEGABYTE → 256 * env.ONE_MEGABYTE < 2 ^ 64 →
        (2 * env.ONE_MEGABYTE) % 2 ^ 64 ≠ (256 * env.ONE_MEGABYTE) % 2 ^ 64) := by
  rw [CreateChainParams_token] at hn
  have hf := construct_ok_fields env n p hn
  subst hf
  refine ⟨rfl, ?_, ?_, ?_, ?_⟩
  · rintro (h | h | h) <;> subst h <;> rfl
  · rintro rfl; rfl
  · rintro rfl; rfl
  · intro h0 h256
    rw [Nat.mod_eq_of_lt (by omega), Nat.mod_eq_of_lt h256]
    omega

/-- Witness of the amended C3: main selected in the concrete environment. -/
theorem C3_fresh_config_reports_constant_witness :
    CreateChainParams stdEnv Network.main.token = Outcome.ok (CMainParams.fields stdEnv) ∧
      Params { globalChainParams := some (CMainParams.fields stdEnv) } =
        Outcome.ok (CMainParams.fields stdEnv) ∧
      (GlobalConfig.new stdEnv).GetExcessiveBlockSize =
        (CMainParams.fields stdEnv).consensus.nDefaultExcessiveBlockSize :=
  have hn : CreateChainParams stdEnv Network.main.token =
      Outcome.ok (CMainParams.fields stdEnv) :=
    (CreateChainParams_token stdEnv Network.main).trans
      ((CMainParams_ok_iff stdEnv _).2
        ⟨⟨by decide, stdEnv_genesis_hash, stdEnv_genesis_merkle⟩, rfl⟩)
  ⟨hn, rfl,
    (C3_fresh_config_reports_constant stdEnv Network.main
      { globalChainParams := some (CMainParams.fields stdEnv) } (CMainParams.fields stdEnv)
      hn rfl).2.1 (Or.inl rfl)⟩

/-- C4: in an environment where the constructors complete, for every string
`t`, `CreateChainParams t` returns a profile exactly when `t` is one of the
five tokens main, testnet, testnet4, scalenet, regtest (compared character by
character), the returned profile's network ID is `t`, and for every other
string it throws an error whose message contains `t`. -/
theorem C4_CreateChainParams_tokens (env : Env) (hok : env.Constructs) (t : String) :
    ((∃ p, CreateChainParams env t = Outcome.ok p) ↔
        t ∈ ["main", "testnet", "testnet4", "scalenet", "regtest"]) ∧
      (∀ p, CreateChainParams env t = Outcome.ok p → p.strNetworkID = t) ∧
      (t ∉ ["main", "testnet", "testnet4", "scalenet", "regtest"] →
        CreateChainParams env t =
            Outcome.threw ("CreateChainParams: Unknown chain " ++ t ++ ".") ∧
          ∃ pre post : String,
            CreateChainParams env t = Outcome.threw (pre ++ t ++ post)) := by
  have hiff : (∃ p, CreateChainParams env t = Outcome.ok p) ↔ t ∈ networkTokens := by
    constructor
    · rintro ⟨p, hp⟩
      by_contra hn
      rw [CreateChainParams_unknown env t hn] at hp
      cases hp
    · intro ht
      obtain ⟨n, rfl⟩ := (mem_networkTokens t).1 ht
      rw [CreateChainParams_token]
      exact hok n
  refine ⟨hiff, ?_, ?_⟩
  · intro p hp
    obtain ⟨n, rfl⟩ := (mem_networkTokens t).1 (hiff.1 ⟨p, hp⟩)
    rw [CreateChainParams_token] at hp
    rw [construct_ok_fields env n p hp]
    cases n <;> rfl
  · intro hn
    have h := CreateChainParams_unknown env t hn
    exact ⟨h, "CreateChainParams: Unknown chain ", ".", h⟩

/-- Witness of C4 in the concrete environment: "testnet4" is accepted and
yields a profile named "testnet4", "Main" and "mynet" are refused with a
message that carries them. -/
theorem C4_CreateChainParams_tokens_witness :
    stdEnv.Constructs ∧
      (∃ p, CreateChainParams stdEnv "testnet4" = Outcome.ok p ∧ p.strNetworkID = "testnet4") ∧
      CreateChainParams stdEnv "Main" =
        Outcome.threw "CreateChainParams: Unknown chain Main." ∧
      CreateChainParams stdEnv "mynet" =
        Outcome.threw "CreateChainParams: Unknown chain mynet." :=
  ⟨stdEnv_constructs,
    (((C4_CreateChainParams_tokens stdEnv stdEnv_constructs "testnet4").1.2 (by decide)).imp
      fun p hp =>
        ⟨hp, (C4_CreateChainParams_tokens stdEnv stdEnv_constructs "testnet4").2.1 p hp⟩),
    ((C4_CreateChainParams_tokens stdEnv stdEnv_constructs "Main").2.2 (by decide)).1,
    ((C4_CreateChainParams_tokens stdEnv stdEnv_constructs "mynet").2.2 (by decide)).1⟩

/-- C5: for every string `t` outside the five tokens and every prior state
of the active profile, `SelectParams t` does not return, the process-wide
state afterwards is the state before the call, and the failure is the
unknown-chain error of `CreateChainParams` carrying `t` whenever
`SelectBaseParams t` returns; otherwise it is the failure that
`SelectBaseParams t` itself raised. -/
theorem C5_SelectParams_unknown (env : Env) (t : String) (g : Globals)
    (ht : t ∉ ["main", "testnet", "testnet4", "scalenet", "regtest"]) :
    (SelectParams env t g).1 ≠ Outcome.ok () ∧
      (SelectParams env t g).2 = g ∧
      (SelectParams env t g).2.globalChainParams = g.globalChainParams ∧
      (env.SelectBaseParams t = Outcome.ok () →
        (SelectParams env t g).1 =
          Outcome.threw ("CreateChainParams: Unknown chain " ++ t ++ ".")) ∧
      (env.SelectBaseParams t ≠ Outcome.ok () →
        (SelectParams env t g).1 = env.SelectBaseParams t) := by
  have hc := CreateChainParams_unknown env t ht
  have hfail : (SelectParams env t g).1 ≠ Outcome.ok () := by
    unfold SelectParams
    cases hb : env.SelectBaseParams t <;> simp [hc]
  have hst := SelectParams_fail_state env t g hfail
  refine ⟨hfail, hst, by rw [hst], ?_, ?_⟩
  · intro hb
    simp [SelectParams, hb, hc, unknownChainMessage]
  · intro hb
    unfold SelectParams
    cases hb2 : env.SelectBaseParams t with
    | threw w => rfl
    | abort => rfl
    | ok u => exact absurd hb2 hb

/-- Witness of C5: "mynet", after regtest was selected, in the concrete
environment and in one whose `SelectBaseParams` accepts every name. -/
theorem C5_SelectParams_unknown_witness :
    "mynet" ∉ ["main", "testnet", "testnet4", "scalenet", "regtest"] ∧
      (SelectParams stdEnv "mynet"
          { globalChainParams := some (CRegTestParams.fields stdEnv) }).2 =
        { globalChainParams := some (CRegTestParams.fields stdEnv) } ∧
      (SelectParams stdEnv "mynet"
          { globalChainParams := some (CRegTestParams.fields stdEnv) }).1 =
        Outcome.threw "CreateBaseChainParams: Unknown chain mynet." ∧
      (SelectParams { stdEnv with SelectBaseParams := fun _ => Outcome.ok () } "mynet"
          Globals.initial).1 =
        Outcome.threw "CreateChainParams: Unknown chain mynet." :=
  ⟨by decide,
    (C5_SelectParams_unknown stdEnv "mynet"
      { globalChainParams := some (CRegTestParams.fields stdEnv) } (by decide)).2.1,
    (C5_SelectParams_unknown stdEnv "mynet"
      { globalChainParams := some (CRegTestParams.fields stdEnv) } (by decide)).2.2.2.2
      (by decide),
    (C5_SelectParams_unknown { stdEnv with SelectBaseParams := fun _ => Outcome.ok () } "mynet"
      Globals.initial (by decide)).2.2.2.1 rfl⟩

/-- C6: `Params()` aborts on its assertion at process start and after any
sequence of `SelectParams` calls none of which returned; after a
`SelectParams t` that returned, from any prior state, `Params()` returns the
profile `CreateChainParams t` creates and `GlobalConfig::GetChainParams()`
returns that same profile; and for each of the five tokens the selection does
return when the constructors complete and `SelectBaseParams` returns. -/
theorem C6_Params_after_select (env : Env) :
    Params Globals.initial = Outcome.abort ∧
      (∀ ts : List String, (∀ t ∈ ts, ∀ g, (SelectParams env t g).1 ≠ Outcome.ok ()) →
        Params (selectAll env ts Globals.initial) = Outcome.abort) ∧
      (∀ (t : String) (g : Globals), (SelectParams env t g).1 = Outcome.ok () →
        ∃ p, CreateChainParams env t = Outcome.ok p ∧
          Params (SelectParams env t g).2 = Outcome.ok p ∧
          ∀ c : GlobalConfig, c.GetChainParams (SelectParams env t g).2 = Outcome.ok p) ∧
      (∀ (n : Network) (g : Globals), env.Constructs →
        env.SelectBaseParams n.token = Outcome.ok () →
        (SelectParams env n.token g).1 = Outcome.ok ()) := by
  refine ⟨rfl, ?_, ?_, ?_⟩
  · intro ts
    have key : ∀ g : Globals, (∀ t ∈ ts, ∀ g, (SelectParams env t g).1 ≠ Outcome.ok ()) →
        selectAll env ts g = g := by
      induction ts with
      | nil => intro g _; rfl
      | cons t ts ih =>
        intro g h
        have h1 := SelectParams_fail_state env t g (h t (List.mem_cons_self t ts) g)
        simp only [selectAll, h1]
        exact ih g (fun u hu => h u (List.mem_cons_of_mem t hu))
    intro h
    rw [key Globals.initial h]
    rfl
  · intro t g h
    obtain ⟨p, hc, hs⟩ := SelectParams_ok_inv env t g h
    refine ⟨p, hc, ?_, ?_⟩
    · rw [hs]; rfl
    · intro c; rw [hs]; rfl
  · intro n g hok hb
    obtain ⟨p, hp⟩ := hok n
    rw [SelectParams_of_ok env n.token g p hb (by rw [CreateChainParams_token]; exact hp)]

/-- Witness of C6 in the concrete environment: scalenet selected after
regtest, with a failed selection of "mynet" in between. -/
theorem C6_Params_after_select_witness :
    Params (selectAll stdEnv ["mynet", "Main"] Globals.initial) = Outcome.abort ∧
      (SelectParams stdEnv "scalenet"
        (selectAll stdEnv ["regtest", "mynet"] Globals.initial)).1 = Outcome.ok () ∧
      ∃ p, CreateChainParams stdEnv "scalenet" = Outcome.ok p ∧
        Params (SelectParams stdEnv "scalenet"
          (selectAll stdEnv ["regtest", "mynet"] Globals.initial)).2 = Outcome.ok p ∧
        ∀ c : GlobalConfig, c.GetChainParams (SelectParams stdEnv "scalenet"
          (selectAll stdEnv ["regtest", "mynet"] Globals.initial)).2 = Outcome.ok p :=
  have hsel : (SelectParams stdEnv "scalenet"
      (selectAll stdEnv ["regtest", "mynet"] Globals.initial)).1 = Outcome.ok () :=
    (C6_Params_after_select stdEnv).2.2.2 Network.scalenet _ stdEnv_constructs (by decide)
  ⟨(C6_Params_after_select stdEnv).2.1 ["mynet", "Main"] (by
      intro t ht g
      have hnot : t ∉ networkTokens := by
        simp only [List.mem_cons, List.mem_singleton, List.not_mem_nil, or_false] at ht
        rcases ht with rfl | rfl <;> decide
      have hc := CreateChainParams_unknown stdEnv t hnot
      unfold SelectParams
      cases hb : stdEnv.SelectBaseParams t <;> simp [hc]),
    hsel,
    (C6_Params_after_select stdEnv).2.2.1 "scalenet" _ hsel⟩

/-- C7: with double SHA-256 over the wire encoding, the genesis block built
from time 1638317164, nonce 1607403406, bits 0x1d00ffff, version 1, reward
50 * 10^8, the timestamp "hi twitter" and the literal public-key script has
header hash 00000000671e78e128aa4b3943689e2675d80410c280a81d9e102036716f1a0e
and merkle root
47e610f3c0282e7318658c16dfbb6e34b32a8d16b41b36ff693a460d50967077; each of the
five constructors builds its genesis block from these inputs, and each of them
completes, so that its genesis assertions pass. -/
theorem C7_genesis_hash_and_merkle_root :
    Hash256 (serializeHeader
        (CreateGenesisBlock stdEnv (cstrLit "hi twitter")
          (CScript.pushOpcode (CScript.pushBytes [] genesisPubKey) OP_CHECKSIG)
          1638317164 1607403406 0x1d00ffff 1 (50 * 100000000)).toCBlockHeader) =
        0x00000000671e78e128aa4b3943689e2675d80410c280a81d9e102036716f1a0e ∧
      (CreateGenesisBlock stdEnv (cstrLit "hi twitter")
          (CScript.pushOpcode (CScript.pushBytes [] genesisPubKey) OP_CHECKSIG)
          1638317164 1607403406 0x1d00ffff 1 (50 * 100000000)).hashMerkleRoot =
        0x47e610f3c0282e7318658c16dfbb6e34b32a8d16b41b36ff693a460d50967077 ∧
      (∀ (env : Env) (n : Network),
        (n.fields env).genesis =
            CreateGenesisBlock env (cstrLit "hi twitter")
              (env.pushOpcode (env.pushBytes [] genesisPubKey) OP_CHECKSIG)
              1638317164 1607403406 0x1d00ffff 1 (50 * 100000000) ∧
          (n.fields env).consensus.hashGenesisBlock =
            env.GetHash (n.fields env).genesis.toCBlockHeader) ∧
      (∀ n : Network, n.construct stdEnv = Outcome.ok (n.fields stdEnv) ∧
        (n.fields stdEnv).consensus.hashGenesisBlock =
          0x00000000671e78e128aa4b3943689e2675d80410c280a81d9e102036716f1a0e ∧
        (n.fields stdEnv).genesis.hashMerkleRoot =
          0x47e610f3c0282e7318658c16dfbb6e34b32a8d16b41b36ff693a460d50967077) := by
  refine ⟨stdEnv_genesis_hash, stdEnv_genesis_merkle, ?_, ?_⟩
  · intro env n
    cases n <;> exact ⟨rfl, rfl⟩
  · intro n
    obtain ⟨p, hp⟩ := stdEnv_constructs n
    have hf := construct_ok_fields stdEnv n p hp
    subst hf
    refine ⟨hp, (construct_ok_checks stdEnv n _ hp).1, ?_⟩
    cases n <;> exact stdEnv_genesis_merkle

/-- C9: each of the five constructors that completes returns a profile whose
default generated block size is at most its default excessive block size
(8 MB against `DEFAULT_EXCESSIVE_BLOCK_SIZE` on main, testnet and regtest,
2 MB against 2 MB on testnet4, 8 MB against 256 MB on scalenet), and a
constructor whose two values violate this aborts. -/
theorem C9_generated_le_excessive (env : Env) (n : Network) :
    (∀ p, n.construct env = Outcome.ok p →
        p.consensus.nDefaultGeneratedBlockSize ≤ p.consensus.nDefaultExcessiveBlockSize ∧
        p.consensus.nDefaultGeneratedBlockSize =
          (match n with
            | Network.testnet4 => (2 * env.ONE_MEGABYTE) % 2 ^ 64
            | _ => (8 * env.ONE_MEGABYTE) % 2 ^ 64) ∧
        p.consensus.nDefaultExcessiveBlockSize =
          (match n with
            | Network.testnet4 => (2 * env.ONE_MEGABYTE) % 2 ^ 64
            | Network.scalenet => (256 * env.ONE_MEGABYTE) % 2 ^ 64
            | _ => env.DEFAULT_EXCESSIVE_BLOCK_SIZE)) ∧
      (¬ (n.fields env).consensus.nDefaultGeneratedBlockSize ≤
          (n.fields env).consensus.nDefaultExcessiveBlockSize →
        n.construct env = Outcome.abort) := by
  constructor
  · intro p hp
    have hf := construct_ok_fields env n p hp
    refine ⟨(construct_ok_checks env n p hp).2.2, ?_, ?_⟩ <;> subst hf <;> cases n <;> rfl
  · intro hnot
    apply construct_abort_of_not_ok
    intro p hp
    have hf := construct_ok_fields env n p hp
    have hle := (construct_ok_checks env n p hp).2.2
    subst hf
    exact hnot hle

/-- Witness of C9: scalenet in the concrete environment (8,000,000 against
256,000,000), and main aborting when the excessive default is 1. -/
theorem C9_generated_le_excessive_witness :
    CScaleNetParams stdEnv = Outcome.ok (CScaleNetParams.fields stdEnv) ∧
      (CScaleNetParams.fields stdEnv).consensus.nDefaultGeneratedBlockSize = 8000000 ∧
      (CScaleNetParams.fields stdEnv).consensus.nDefaultExcessiveBlockSize = 256000000 ∧
      (CScaleNetParams.fields stdEnv).consensus.nDefaultGeneratedBlockSize ≤
        (CScaleNetParams.fields stdEnv).consensus.nDefaultExcessiveBlockSize ∧
      CMainParams { stdEnv with DEFAULT_EXCESSIVE_BLOCK_SIZE := 1 } = Outcome.abort :=
  have hs : CScaleNetParams stdEnv = Outcome.ok (CScaleNetParams.fields stdEnv) :=
    (CScaleNetParams_ok_iff stdEnv _).2
      ⟨⟨by decide, stdEnv_genesis_hash, stdEnv_genesis_merkle⟩, rfl⟩
  ⟨hs, by decide, by decide,
    ((C9_generated_le_excessive stdEnv Network.scalenet).1 _ hs).1,
    (C9_generated_le_excessive { stdEnv with DEFAULT_EXCESSIVE_BLOCK_SIZE := 1 }
      Network.main).2 (by decide)⟩

/-- C10: for all inputs, the block `CreateGenesisBlock` returns has the given
time, nonce, bits and version, an all-zero previous-block hash, and exactly
one transaction: version 1, one input whose script is the push of 486604799,
then the push of 4, then the push of the timestamp's bytes up to (and without)
the terminating NUL, and one output that pays `genesisReward` to
`genesisOutputScript`.  With the usual script encoders the two integer pushes
are the bytes 04 ff ff 00 1d 01 04. -/
theorem C10_CreateGenesisBlock_shape (env : Env) (pszTimestamp : List Nat)
    (genesisOutputScript : CScript) (nTime nNonce nBits : Nat) (nVersion : Int)
    (genesisReward : Amount) :
    (CreateGenesisBlock env pszTimestamp genesisOutputScript nTime nNonce nBits nVersion
        genesisReward).nTime = nTime ∧
      (CreateGenesisBlock env pszTimestamp genesisOutputScript nTime nNonce nBits nVersion
        genesisReward).nNonce = nNonce ∧
      (CreateGenesisBlock env pszTimestamp genesisOutputScript nTime nNonce nBits nVersion
        genesisReward).nBits = nBits ∧
      (CreateGenesisBlock env pszTimestamp genesisOutputScript nTime nNonce nBits nVersion
        genesisReward).nVersion = nVersion ∧
      (CreateGenesisBlock env pszTimestamp genesisOutputScript nTime nNonce nBits nVersion
        genesisReward).hashPrevBlock = 0 ∧
      (CreateGenesisBlock env pszTimestamp genesisOutputScript nTime nNonce nBits nVersion
        genesisReward).vtx =
        [{ nVersion := 1
           vin := [{ prevout := { hash := 0, n := 4294967295 }
                     scriptSig :=
                       env.pushBytes (env.pushScriptNum (env.pushScriptInt [] 486604799) 4)
                         (pszTimestamp.takeWhile (fun b => b != 0))
                     nSequence := 4294967295 }]
           vout := [{ nValue := genesisReward, scriptPubKey := genesisOutputScript }]
           nLockTime := 0 }] ∧
      (0 ∉ pszTimestamp.takeWhile (fun b => b != 0)) ∧
      ((pszTimestamp ++ [0]).takeWhile (fun b => b != 0) =
        pszTimestamp.takeWhile (fun b => b != 0)) ∧
      CScript.pushScriptNum (CScript.pushScriptInt [] 486604799) 4 =
        [4, 0xff, 0xff, 0x00, 0x1d, 1, 4] := by
  refine ⟨rfl, rfl, rfl, rfl, rfl, rfl, ?_, ?_, by decide⟩
  · intro h
    have := List.mem_takeWhile_imp h
    simp at this
  · induction pszTimestamp with
    | nil => simp
    | cons b bs ih =>
      by_cases hb : b = 0
      · simp [List.takeWhile, hb]
      · simp [List.takeWhile, hb, ih]

/-- The four sample texts under the network helpers modelled from the spec. -/
theorem specNetBase_samples :
    specLookupNumeric "8.8.8.8" 0 = { ip := ipv4Mapped [8, 8, 8, 8], port := 0 } ∧
      specLookupNumeric "8.8.8.8:0" 0 = { ip := ipv4Mapped [8, 8, 8, 8], port := 0 } ∧
      specLookupNumeric "127.0.0.1:8333" 0 = { ip := ipv4Mapped [127, 0, 0, 1], port := 8333 } ∧
      specLookupNumeric "8.8.8.8:8333" 0 = { ip := ipv4Mapped [8, 8, 8, 8], port := 8333 } ∧
      specLookupNumeric "not-an-ip:8333" 0 = CService.null := by
  decide

/-- C11: `SeedSpec6(hostPort)` classifies its input by the looked-up service
(default port 0), in this order: an invalid service or a port of 0 gives the
parse error, whether or not the address is routable; otherwise a service that
is not routable gives the not-routable error; otherwise the call succeeds with
the seed of the looked-up service, which has its address and its port. -/
theorem C11_SeedSpec6_classification (nb : NetBase) (s : String) :
    (nb.IsValid (nb.LookupNumeric s 0) = false ∨ (nb.LookupNumeric s 0).GetPort = 0 →
        SeedSpec6.new nb s = Outcome.threw ("Unable to parse numeric-IP:port pair: " ++ s)) ∧
      (nb.IsValid (nb.LookupNumeric s 0) = true → (nb.LookupNumeric s 0).GetPort ≠ 0 →
        nb.IsRoutable (nb.LookupNumeric s 0) = false →
        SeedSpec6.new nb s = Outcome.threw ("Not routable: " ++ s)) ∧
      (nb.IsValid (nb.LookupNumeric s 0) = true → (nb.LookupNumeric s 0).GetPort ≠ 0 →
        nb.IsRoutable (nb.LookupNumeric s 0) = true →
        SeedSpec6.new nb s = Outcome.ok (SeedSpec6.ofService (nb.LookupNumeric s 0)) ∧
          (SeedSpec6.ofService (nb.LookupNumeric s 0)).addr = (nb.LookupNumeric s 0).ip ∧
          (SeedSpec6.ofService (nb.LookupNumeric s 0)).port = (nb.LookupNumeric s 0).port) := by
  refine ⟨?_, ?_, ?_⟩
  · rintro (h | h) <;> simp [SeedSpec6.new, h]
  · intro hv hp hr
    simp [SeedSpec6.new, hv, hp, hr]
  · intro hv hp hr
    refine ⟨?_, rfl, rfl⟩
    simp [SeedSpec6.new, hv, hp, hr]

/-- Witness of C11 with the network helpers modelled from the spec: "8.8.8.8"
(port missing) and "8.8.8.8:0" give the parse error, "127.0.0.1:8333" is not
routable, "8.8.8.8:8333" succeeds with address 8.8.8.8 and port 8333. -/
theorem C11_SeedSpec6_classification_witness :
    SeedSpec6.new specNetBase "8.8.8.8" =
        Outcome.threw "Unable to parse numeric-IP:port pair: 8.8.8.8" ∧
      SeedSpec6.new specNetBase "8.8.8.8:0" =
        Outcome.threw "Unable to parse numeric-IP:port pair: 8.8.8.8:0" ∧
      SeedSpec6.new specNetBase "127.0.0.1:8333" = Outcome.threw "Not routable: 127.0.0.1:8333" ∧
      SeedSpec6.new specNetBase "8.8.8.8:8333" =
        Outcome.ok { addr := [0, 0, 0, 0, 0, 0, 0, 0, 0, 0, 255, 255, 8, 8, 8, 8], port := 8333 } :=
  ⟨(C11_SeedSpec6_classification specNetBase "8.8.8.8").1 (Or.inr (by decide)),
    (C11_SeedSpec6_classification specNetBase "8.8.8.8:0").1 (Or.inr (by decide)),
    (C11_SeedSpec6_classification specNetBase "127.0.0.1:8333").2.1 (by decide) (by decide)
      (by decide),
    ((C11_SeedSpec6_classification specNetBase "8.8.8.8:8333").2.2 (by decide) (by decide)
      (by decide)).1⟩

/-- C12, as stated, fails: the failures reported for "8.8.8.8:0" (port zero),
for "8.8.8.8" (port missing) and for "not-an-ip:8333" (host not a literal)
carry one and the same reason in front of the echoed input. -/
theorem C12_counterexample :
    SeedSpec6.new specNetBase "8.8.8.8:0" =
        Outcome.threw ("Unable to parse numeric-IP:port pair: " ++ "8.8.8.8:0") ∧
      SeedSpec6.new specNetBase "8.8.8.8" =
        Outcome.threw ("Unable to parse numeric-IP:port pair: " ++ "8.8.8.8") ∧
      SeedSpec6.new specNetBase "not-an-ip:8333" =
        Outcome.threw ("Unable to parse numeric-IP:port pair: " ++ "not-an-ip:8333") := by
  decide

/-- C12, amended: the failure reported for an input whose port is zero
carries the same reason as the failure reported for an input whose looked-up
service is invalid (host not a numeric literal): both messages are "Unable to
parse numeric-IP:port pair: " followed by the input.  Only the not-routable
failure has a reason of its own, "Not routable: ". -/
theorem C12_parse_failures_share_reason (nb : NetBase) (s1 s2 : String)
    (h1 : (nb.LookupNumeric s1 0).GetPort = 0)
    (h2 : nb.IsValid (nb.LookupNumeric s2 0) = false) :
    (∃ reason : String,
        SeedSpec6.new nb s1 = Outcome.threw (reason ++ s1) ∧
        SeedSpec6.new nb s2 = Outcome.threw (reason ++ s2)) ∧
      (∀ s3 : String, nb.IsValid (nb.LookupNumeric s3 0) = true →
        (nb.LookupNumeric s3 0).GetPort ≠ 0 → nb.IsRoutable (nb.LookupNumeric s3 0) = false →
        SeedSpec6.new nb s3 = Outcome.threw ("Not routable: " ++ s3)) ∧
      "Not routable: " ≠ "Unable to parse numeric-IP:port pair: " ∧
      SeedSpec6.new nb s1 = Outcome.threw ("Unable to parse numeric-IP:port pair: " ++ s1) ∧
      SeedSpec6.new nb s2 = Outcome.threw ("Unable to parse numeric-IP:port pair: " ++ s2) := by
  have e1 : SeedSpec6.new nb s1 =
      Outcome.threw ("Unable to parse numeric-IP:port pair: " ++ s1) := by
    simp [SeedSpec6.new, h1]
  have e2 : SeedSpec6.new nb s2 =
      Outcome.threw ("Unable to parse numeric-IP:port pair: " ++ s2) := by
    simp [SeedSpec6.new, h2]
  refine ⟨⟨"Unable to parse numeric-IP:port pair: ", e1, e2⟩, ?_, by decide, e1, e2⟩
  intro s3 hv hp hr
  simp [SeedSpec6.new, hv, hp, hr]

/-- Witness of the amended C12 with the network helpers modelled from the
spec: "8.8.8.8:0" has port zero, "not-an-ip:8333" has an invalid service. -/
theorem C12_parse_failures_share_reason_witness :
    (specNetBase.LookupNumeric "8.8.8.8:0" 0).GetPort = 0 ∧
      specNetBase.IsValid (specNetBase.LookupNumeric "not-an-ip:8333" 0) = false ∧
      (∃ reason : String,
        SeedSpec6.new specNetBase "8.8.8.8:0" = Outcome.threw (reason ++ "8.8.8.8:0") ∧
        SeedSpec6.new specNetBase "not-an-ip:8333" =
          Outcome.threw (reason ++ "not-an-ip:8333")) ∧
      SeedSpec6.new specNetBase "8.8.8.8:0" =
        Outcome.threw ("Unable to parse numeric-IP:port pair: " ++ "8.8.8.8:0") ∧
      SeedSpec6.new specNetBase "not-an-ip:8333" =
        Outcome.threw ("Unable to parse numeric-IP:port pair: " ++ "not-an-ip:8333") :=
  ⟨by decide, by decide,
    (C12_parse_failures_share_reason specNetBase "8.8.8.8:0" "not-an-ip:8333" (by decide)
      (by decide)).1,
    (C12_parse_failures_share_reason specNetBase "8.8.8.8:0" "not-an-ip:8333" (by decide)
      (by decide)).2.2.2⟩

/-- C13: the three fields of `GlobalConfig` are independent:
`SetCashAddrEncoding` leaves the excessive block size and the excess-UTXO
charge unchanged, `SetExcessUTXOCharge` leaves the address-encoding flag and
the excessive block size unchanged, and `SetExcessiveBlockSize`, accepted or
refused, leaves the address-encoding flag and the excess-UTXO charge
unchanged. -/
theorem C13_config_fields_independent (cfg : GlobalConfig) (c : Bool) (fee : Amount)
    (blockSize : Nat) :
    ((cfg.SetCashAddrEncoding c).GetExcessiveBlockSize = cfg.GetExcessiveBlockSize ∧
        (cfg.SetCashAddrEncoding c).GetExcessUTXOCharge = cfg.GetExcessUTXOCharge) ∧
      ((cfg.SetExcessUTXOCharge fee).UseCashAddrEncoding = cfg.UseCashAddrEncoding ∧
        (cfg.SetExcessUTXOCharge fee).GetExcessiveBlockSize = cfg.GetExcessiveBlockSize) ∧
      ((cfg.SetExcessiveBlockSize blockSize).2.UseCashAddrEncoding = cfg.UseCashAddrEncoding ∧
        (cfg.SetExcessiveBlockSize blockSize).2.GetExcessUTXOCharge =
          cfg.GetExcessUTXOCharge) := by
  refine ⟨⟨rfl, rfl⟩, ⟨rfl, rfl⟩, ?_⟩
  unfold GlobalConfig.SetExcessiveBlockSize
  split <;> exact ⟨rfl, rfl⟩

/-- C14: a fresh `GlobalConfig` reports an excess-UTXO charge of zero; the
two plain setters round-trip: after `SetExcessUTXOCharge f` the getter returns
`f`, after `SetCashAddrEncoding c` the getter returns `c`; and the last write
wins over an earlier one. -/
theorem C14_plain_setters_round_trip (env : Env) (cfg : GlobalConfig) (f f0 : Amount)
    (c c0 : Bool) :
    (GlobalConfig.new env).GetExcessUTXOCharge = 0 ∧
      (cfg.SetExcessUTXOCharge f).GetExcessUTXOCharge = f ∧
      (cfg.SetCashAddrEncoding c).UseCashAddrEncoding = c ∧
      ((cfg.SetExcessUTXOCharge f0).SetExcessUTXOCharge f).GetExcessUTXOCharge = f ∧
      ((cfg.SetCashAddrEncoding c0).SetCashAddrEncoding c).UseCashAddrEncoding = c :=
  ⟨rfl, rfl, rfl, rfl, rfl⟩

/-- C15, as stated, fails: the regtest profile has no anchor record either,
so the record is absent on two networks (scalenet and regtest) and present on
three. -/
theorem C15_counterexample :
    CRegTestParams stdEnv = Outcome.ok (CRegTestParams.fields stdEnv) ∧
      (CRegTestParams.fields stdEnv).consensus.asertAnchorParams = none ∧
      (CScaleNetParams.fields stdEnv).consensus.asertAnchorParams = none ∧
      ([Network.main, Network.testnet, Network.testnet4, Network.scalenet,
        Network.regtest].filter
          fun n => (n.fields stdEnv).consensus.asertAnchorParams.isSome).length = 3 := by
  refine ⟨?_, rfl, rfl, rfl⟩
  exact (CRegTestParams_ok_iff stdEnv _).2
    ⟨⟨by decide, stdEnv_genesis_hash, stdEnv_genesis_merkle⟩, rfl⟩

/-- C15, amended: among the five built-in profiles the anchor record is
present for exactly three networks (main, testnet, testnet4, each with its own
height, bits and parent timestamp) and absent for exactly two: scalenet, whose
constructor resets it, and regtest, whose constructor never assigns it. -/
theorem C15_anchor_present_on_three (env : Env) (n : Network) :
    ((n.fields env).consensus.asertAnchorParams.isSome = true ↔
        n = Network.main ∨ n = Network.testnet ∨ n = Network.testnet4) ∧
      ((n.fields env).consensus.asertAnchorParams = none ↔
        n = Network.scalenet ∨ n = Network.regtest) ∧
      (Network.main.fields env).consensus.asertAnchorParams =
        some { nHeight := 661647, nBits := 0x1804dafe, nPrevBlockTime := 1605447844 } ∧
      (Network.testnet.fields env).consensus.asertAnchorParams =
        some { nHeight := 1421481, nBits := 0x1d00ffff, nPrevBlockTime := 1605445400 } ∧
      (Network.testnet4.fields env).consensus.asertAnchorParams =
        some { nHeight := 16844, nBits := 0x1d00ffff, nPrevBlockTime := 1605451779 } ∧
      (∀ p, n.construct env = Outcome.ok p →
        p.consensus.asertAnchorParams = (n.fields env).consensus.asertAnchorParams) := by
  refine ⟨?_, ?_, rfl, rfl, rfl, ?_⟩
  · cases n <;> simp [Network.fields, CMainParams.fields, CTestNetParams.fields,
      CTestNet4Params.fields, CScaleNetParams.fields, CRegTestParams.fields]
  · cases n <;> simp [Network.fields, CMainParams.fields, CTestNetParams.fields,
      CTestNet4Params.fields, CScaleNetParams.fields, CRegTestParams.fields]
  · intro p hp
    rw [construct_ok_fields env n p hp]

/-- C16: all five built-in profiles carry the disk magic fa bf b5 da and the
net magic e4 e2 f4 e9, so for every pair of networks the two magic sequences
are byte for byte equal, also in the profiles the constructors return. -/
theorem C16_magic_bytes_shared (env : Env) (n m : Network) :
    (n.fields env).diskMagic = [0xfa, 0xbf, 0xb5, 0xda] ∧
      (n.fields env).netMagic = [0xe4, 0xe2, 0xf4, 0xe9] ∧
      (n.fields env).diskMagic = (m.fields env).diskMagic ∧
      (n.fields env).netMagic = (m.fields env).netMagic ∧
      (∀ p q, n.construct env = Outcome.ok p → m.construct env = Outcome.ok q →
        p.diskMagic = q.diskMagic ∧ p.netMagic = q.netMagic) := by
  have hd : ∀ k : Network, (k.fields env).diskMagic = [0xfa, 0xbf, 0xb5, 0xda] := by
    intro k; cases k <;> rfl
  have hn : ∀ k : Network, (k.fields env).netMagic = [0xe4, 0xe2, 0xf4, 0xe9] := by
    intro k; cases k <;> rfl
  refine ⟨hd n, hn n, by rw [hd n, hd m], by rw [hn n, hn m], ?_⟩
  intro p q hp hq
  rw [construct_ok_fields env n p hp, construct_ok_fields env m q hq]
  exact ⟨by rw [hd n, hd m], by rw [hn n, hn m]⟩

/-- Witness of C16 in the concrete environment: main and regtest. -/
theorem C16_magic_bytes_shared_witness :
    CMainParams stdEnv = Outcome.ok (CMainParams.fields stdEnv) ∧
      CRegTestParams stdEnv = Outcome.ok (CRegTestParams.fields stdEnv) ∧
      (CMainParams.fields stdEnv).diskMagic = (CRegTestParams.fields stdEnv).diskMagic ∧
      (CMainParams.fields stdEnv).netMagic = (CRegTestParams.fields stdEnv).netMagic :=
  have hm : CMainParams stdEnv = Outcome.ok (CMainParams.fields stdEnv) :=
    (CMainParams_ok_iff stdEnv _).2
      ⟨⟨by decide, stdEnv_genesis_hash, stdEnv_genesis_merkle⟩, rfl⟩
  have hr : CRegTestParams stdEnv = Outcome.ok (CRegTestParams.fields stdEnv) :=
    (CRegTestParams_ok_iff stdEnv _).2
      ⟨⟨by decide, stdEnv_genesis_hash, stdEnv_genesis_merkle⟩, rfl⟩
  ⟨hm, hr, (C16_magic_bytes_shared stdEnv Network.main Network.regtest).2.2.2.2 _ _ hm hr⟩

/-- C17: for every input of `CreateGenesisBlock`, the merkle root of the
returned block is the hash of its single coinbase transaction: the block has
exactly one transaction, and the root over a one-transaction list is that
transaction's hash, whatever the hash of inner nodes is (no pairing, no
duplication). -/
theorem C17_genesis_merkle_root_is_coinbase_hash (env : Env) (pszTimestamp : List Nat)
    (genesisOutputScript : CScript) (nTime nNonce nBits : Nat) (nVersion : Int)
    (genesisReward : Amount) :
    (∃ coinbase : CTransaction,
        (CreateGenesisBlock env pszTimestamp genesisOutputScript nTime nNonce nBits nVersion
          genesisReward).vtx = [coinbase] ∧
        (CreateGenesisBlock env pszTimestamp genesisOutputScript nTime nNonce nBits nVersion
          genesisReward).hashMerkleRoot = env.GetId coinbase) ∧
      (∀ (H : uint256 → uint256 → uint256) (fuel : Nat) (h : uint256),
        ComputeMerkleRoot H fuel [h] = h) ∧
      (∀ H : uint256 → uint256 → uint256,
        (CreateGenesisBlock { env with MerkleHash := H } pszTimestamp genesisOutputScript nTime
          nNonce nBits nVersion genesisReward).hashMerkleRoot =
        (CreateGenesisBlock env pszTimestamp genesisOutputScript nTime nNonce nBits nVersion
          genesisReward).hashMerkleRoot) := by
  refine ⟨⟨_, rfl, rfl⟩, ?_, fun _ => rfl⟩
  intro H fuel h
  cases fuel <;> rfl

/-- C18: when the constructor's initial value `DEFAULT_EXCESSIVE_BLOCK_SIZE`
is greater than `LEGACY_MAX_BLOCK_SIZE`, then after any finite sequence of
`SetExcessiveBlockSize`, `SetCashAddrEncoding` and `SetExcessUTXOCharge` calls
with arbitrary arguments, accepted or refused, `GetExcessiveBlockSize()` is
greater than 1,000,000. -/
theorem C18_excessive_block_size_above_legacy (env : Env)
    (hdef : LEGACY_MAX_BLOCK_SIZE < env.DEFAULT_EXCESSIVE_BLOCK_SIZE)
    (calls : List ConfigCall) :
    1000000 < ((GlobalConfig.new env).run calls).GetExcessiveBlockSize := by
  have step : ∀ (cfg : GlobalConfig) (call : ConfigCall),
      1000000 < cfg.GetExcessiveBlockSize → 1000000 < (cfg.call call).GetExcessiveBlockSize := by
    intro cfg call h
    cases call with
    | SetExcessiveBlockSize blockSize =>
      simp only [GlobalConfig.call, GlobalConfig.SetExcessiveBlockSize, LEGACY_MAX_BLOCK_SIZE]
      split
      · exact h
      · simp only [GlobalConfig.GetExcessiveBlockSize]
        omega
    | SetCashAddrEncoding c => exact h
    | SetExcessUTXOCharge fee => exact h
  have all : ∀ (calls : List ConfigCall) (cfg : GlobalConfig),
      1000000 < cfg.GetExcessiveBlockSize → 1000000 < (cfg.run calls).GetExcessiveBlockSize := by
    intro calls
    induction calls with
    | nil => intro cfg h; exact h
    | cons call calls ih => intro cfg h; exact ih (cfg.call call) (step cfg call h)
  exact all calls (GlobalConfig.new env) hdef

/-- Witness of C18 in the concrete environment: a refused size, the two
plain setters, an accepted size and a refused zero. -/
theorem C18_excessive_block_size_above_legacy_witness :
    LEGACY_MAX_BLOCK_SIZE < stdEnv.DEFAULT_EXCESSIVE_BLOCK_SIZE ∧
      1000000 < ((GlobalConfig.new stdEnv).run
        [ConfigCall.SetExcessiveBlockSize 1000000, ConfigCall.SetCashAddrEncoding false,
         ConfigCall.SetExcessUTXOCharge 5, ConfigCall.SetExcessiveBlockSize 1000001,
         ConfigCall.SetExcessiveBlockSize 0]).GetExcessiveBlockSize :=
  ⟨by decide, C18_excessive_block_size_above_legacy stdEnv (by decide) _⟩

/-- C19: all five networks build their genesis block from the same inputs
(time 1638317164, nonce 1607403406, bits 0x1d00ffff, version 1, reward
50 * COIN, the same timestamp text and output script), so for every pair of
networks the genesis blocks are equal and `consensus.hashGenesisBlock` is the
same value, also in the profiles the constructors return, where it is the one
asserted genesis hash. -/
theorem C19_genesis_shared (env : Env) (n m : Network) :
    (n.fields env).genesis =
        CreateGenesisBlock env (cstrLit "hi twitter")
          (env.pushOpcode (env.pushBytes [] genesisPubKey) OP_CHECKSIG)
          1638317164 1607403406 0x1d00ffff 1 (50 * COIN) ∧
      (n.fields env).genesis = (m.fields env).genesis ∧
      (n.fields env).consensus.hashGenesisBlock = (m.fields env).consensus.hashGenesisBlock ∧
      (∀ p q, n.construct env = Outcome.ok p → m.construct env = Outcome.ok q →
        p.genesis = q.genesis ∧
          p.consensus.hashGenesisBlock = q.consensus.hashGenesisBlock ∧
          p.consensus.hashGenesisBlock =
            0x00000000671e78e128aa4b3943689e2675d80410c280a81d9e102036716f1a0e) := by
  have hg : ∀ k : Network, (k.fields env).genesis = genesisCall env := by
    intro k; cases k <;> rfl
  have hh : ∀ k : Network, (k.fields env).consensus.hashGenesisBlock =
      env.GetHash (genesisCall env).toCBlockHeader := by
    intro k; cases k <;> rfl
  refine ⟨hg n, by rw [hg n, hg m], by rw [hh n, hh m], ?_⟩
  intro p q hp hq
  have hc := (construct_ok_checks env n p hp).1
  rw [construct_ok_fields env n p hp, construct_ok_fields env m q hq] at *
  exact ⟨by rw [hg n, hg m], by rw [hh n, hh m], hc⟩

/-- Witness of C19 in the concrete environment: testnet4 and scalenet. -/
theorem C19_genesis_shared_witness :
    CTestNet4Params stdEnv = Outcome.ok (CTestNet4Params.fields stdEnv) ∧
      CScaleNetParams stdEnv = Outcome.ok (CScaleNetParams.fields stdEnv) ∧
      (CTestNet4Params.fields stdEnv).genesis = (CScaleNetParams.fields stdEnv).genesis ∧
      (CTestNet4Params.fields stdEnv).consensus.hashGenesisBlock =
        (CScaleNetParams.fields stdEnv).consensus.hashGenesisBlock ∧
      (CTestNet4Params.fields stdEnv).consensus.hashGenesisBlock =
        0x00000000671e78e128aa4b3943689e2675d80410c280a81d9e102036716f1a0e :=
  have h4 : CTestNet4Params stdEnv = Outcome.ok (CTestNet4Params.fields stdEnv) :=
    (CTestNet4Params_ok_iff stdEnv _).2 ⟨⟨by decide, stdEnv_genesis_hash⟩, rfl⟩
  have hs : CScaleNetParams stdEnv = Outcome.ok (CScaleNetParams.fields stdEnv) :=
    (CScaleNetParams_ok_iff stdEnv _).2
      ⟨⟨by decide, stdEnv_genesis_hash, stdEnv_genesis_merkle⟩, rfl⟩
  ⟨h4, hs, (C19_genesis_shared stdEnv Network.testnet4 Network.scalenet).2.2.2 _ _ h4 hs⟩

end BCHN
